import Mathlib

/-!
Verification development for the LHF arena visualizer (`Arena` component family).

The definitions below are a shallow embedding of the TypeScript source:

* `planeConfigs`, `scaledWidth`, `visibleWidth`, … embed `Arena.createPlanes`
  (plane catalog and 2-D layout scaling);
* `cropFor` / `applyUVMapping` embed `Arena.applyUVMapping` (UV crop);
* `ArenaState` with `clearVideoFromPlane`, `bindPhase1`/`bindPhase2`/
  `loadVideoOnPlane`, `setMode`, the transport operations and the audio
  operations embeds the stateful part of the `Arena` class;
* `loadModelVersionFromStorage` embeds the localStorage version loading.

Numbers are embedded as exact rationals (`ℚ`); JavaScript numbers are IEEE
doubles, but every constant and every comparison appearing in the verified
code paths is exact at the granularity the claims speak about.
-/

namespace Arena

/-- Catalog entry: `PlaneConfig` from the source (`name`, `width`, `height`,
`color`). -/
structure PlaneConfig where
  name : String
  width : ℚ
  height : ℚ
  color : Nat
deriving DecidableEq, Repr

/-- The `planeConfigs` table of the largest `Arena` variant (10 entries,
including `A9`). -/
def planeConfigs : List PlaneConfig :=
  [ ⟨"A7", 6240, 192, 0xff6b6b⟩,
    ⟨"BIG-MAP", 3840, 552, 0x4ecdc4⟩,
    ⟨"ICE", 4000, 2000, 0x45b7d1⟩,
    ⟨"A1", 10512, 144, 0x96ceb4⟩,
    ⟨"A2", 10800, 144, 0xffeaa7⟩,
    ⟨"K2", 6976, 672, 0xdda0dd⟩,
    ⟨"K4", 5280, 480, 0xfd79a8⟩,
    ⟨"Skeptrons", 512, 200, 0x00b894⟩,
    ⟨"Stairs", 48, 16, 0xe17055⟩,
    ⟨"A9", 3840, 552, 0x4ecdc4⟩ ]

/-- `planeConfigs.find(config => config.name === name)`. -/
def findConfig (name : String) : Option PlaneConfig :=
  planeConfigs.find? (fun c => c.name = name)

/-! ### 2-D layout scaling (`createPlanes`) -/

/-- `Math.max(...this.planeConfigs.map(p => Math.max(p.width, p.height)))`. -/
def maxDimension : ℚ :=
  (planeConfigs.map (fun p => max p.width p.height)).foldl max 0

/-- `const scaleFactor = 15 / maxDimension`. -/
def scaleFactor : ℚ := 15 / maxDimension

/-- `const scaledWidth = config.width * scaleFactor`. -/
def scaledWidth (c : PlaneConfig) : ℚ := c.width * scaleFactor

/-- `const scaledHeight = config.height * scaleFactor`. -/
def scaledHeight (c : PlaneConfig) : ℚ := c.height * scaleFactor

/-- `const minSize = 0.5`. -/
def minSize : ℚ := 1/2

/-- `const visibleWidth = Math.max(scaledWidth, minSize)` — the width actually
handed to `THREE.PlaneGeometry`. -/
def visibleWidth (c : PlaneConfig) : ℚ := max (scaledWidth c) minSize

/-- `const visibleHeight = Math.max(scaledHeight, minSize)` — the height
actually handed to `THREE.PlaneGeometry`. -/
def visibleHeight (c : PlaneConfig) : ℚ := max (scaledHeight c) minSize

/-! ### UV crop computation (`applyUVMapping`) -/

/-- Result of the UV crop: `videoTexture.repeat.set(scaleX, scaleY)` and
`videoTexture.offset.set(offsetX, offsetY)`. -/
structure CropResult where
  scaleX : ℚ
  scaleY : ℚ
  offsetX : ℚ
  offsetY : ℚ
deriving DecidableEq, Repr

/-- The per-plane minimum vertical scale from `applyUVMapping`:
`0.1` for `A7`/`A1`/`A2`, `0.05` for `K2`/`K4`, `0.001` otherwise. -/
def minScaleFor (planeName : String) : ℚ :=
  if planeName = "A7" ∨ planeName = "A1" ∨ planeName = "A2" then 1/10
  else if planeName = "K2" ∨ planeName = "K4" then 1/20
  else 1/1000

/-- The crop branch of `applyUVMapping`, given the plane's configured aspect
ratio `t` (`originalAspectRatio`), the video's aspect ratio `m`
(`videoAspectRatio`) and the plane name (used for the per-plane floor). -/
def cropFor (t m : ℚ) (planeName : String) : CropResult :=
  if |m - t| > 1/10 then
    if m < t then
      -- video taller than needed: crop vertically
      let heightScale := m / t
      let heightOffset := (1 - heightScale) / 2
      let minScale := minScaleFor planeName
      let actualScale := max minScale heightScale
      let actualOffset := if actualScale = minScale then (1 - actualScale) / 2 else heightOffset
      { scaleX := 1, scaleY := actualScale, offsetX := 0, offsetY := actualOffset }
    else
      -- video wider than needed: crop horizontally
      let widthScale := t / m
      let widthOffset := (1 - widthScale) / 2
      { scaleX := max (1/1000) widthScale, scaleY := 1, offsetX := widthOffset, offsetY := 0 }
  else
    { scaleX := 1, scaleY := 1, offsetX := 0, offsetY := 0 }

/-- `applyUVMapping`: looks the plane up in the catalog; with no catalog entry
the full texture is used. `m` is the video aspect ratio
(`video.videoWidth / video.videoHeight`). -/
def applyUVMapping (planeName : String) (m : ℚ) : CropResult :=
  match findConfig planeName with
  | some c => cropFor (c.width / c.height) m planeName
  | none => { scaleX := 1, scaleY := 1, offsetX := 0, offsetY := 0 }

/-! ### The stateful part of the `Arena` class -/

/-- `THREE.FrontSide` / `THREE.DoubleSide`. -/
inductive Side
  | front
  | double
deriving DecidableEq, Repr

/-- A mesh material, by the constructor arguments the source passes to
`THREE.MeshPhongMaterial`:
`phong color transparent opacity side` for plain tint materials,
`videoPhong t side` for the video material built around texture `t`
(`map` and `emissiveMap` both set to `t`, emissive white at intensity `0.9`,
transparent at opacity `0.9`), and `authored tag` for a material that came
with the loaded 3-D asset. -/
inductive Material
  | phong (color : Nat) (transparent : Bool) (opacity : ℚ) (side : Side)
  | videoPhong (texture : Nat) (side : Side)
  | authored (tag : Nat)
deriving DecidableEq, Repr

/-- One renderable mesh: its current material and visibility flag. -/
structure Mesh where
  material : Material
  visible : Bool
deriving DecidableEq, Repr

/-- One `HTMLVideoElement` as the `Arena` class uses it. -/
structure VideoElem where
  src : String
  muted : Bool
  paused : Bool
  ended : Bool
  loop : Bool
  currentTime : ℚ
  duration : ℚ
  objectUrl : Option String
deriving DecidableEq, Repr

/-- The two rendering modes. -/
inductive Mode
  | two
  | three
deriving DecidableEq, Repr

/-- A media source: a URL string or an uploaded `File`. -/
inductive VideoSource
  | url (addr : String)
  | file (fileId : String)
deriving DecidableEq, Repr

abbrev MeshId := Nat

/-! JS `Map` keyed by plane name, embedded as an association list with unique
keys in insertion order: `set` replaces in place or appends, `delete`
removes. -/

def mapGet {α : Type} : List (String × α) → String → Option α
  | [], _ => none
  | (k', v) :: rest, k => if k' = k then some v else mapGet rest k

def mapSet {α : Type} : List (String × α) → String → α → List (String × α)
  | [], k, v => [(k, v)]
  | (k', v') :: rest, k, v =>
      if k' = k then (k, v) :: rest else (k', v') :: mapSet rest k v

def mapDelete {α : Type} : List (String × α) → String → List (String × α)
  | [], _ => []
  | (k', v') :: rest, k => if k' = k then rest else (k', v') :: mapDelete rest k

/-- The whole mutable state of the `Arena` class that the claims touch.
Meshes live in `meshStore` keyed by `MeshId` so that the several containers
(`planeMap`, `model3DPlanes`, `a7Parts`, `bigMapPlanes`) can alias the same
mesh exactly as the object references do in the source. `revokedUrls`,
`disposedTextures` and `releasedVideos` record the external release calls
(`URL.revokeObjectURL`, `texture.dispose()`, final video element states). -/
structure ArenaState where
  mode : Mode
  meshStore : MeshId → Mesh
  model3DLoaded : Bool
  model3DVisible : Bool
  model3DPlanes : String → Option MeshId
  a7Parts : List MeshId
  bigMapPlanes : List MeshId
  videoElements : List (String × List VideoElem)
  videoTextures : List (String × List Nat)
  textureStore : Nat → Option CropResult
  nextTextureId : Nat
  originalMaterials : MeshId → Option Material
  revokedUrls : List String
  disposedTextures : List Nat
  releasedVideos : List VideoElem
  labels2DVisible : Bool
  currentModelVersion : Int

/-- The 2-D proxy planes are created in the constructor from `planeConfigs`;
mesh id `i` is the `i`-th catalog entry. `plane2DEntry` is
`this.planeMap.get(name)` together with that plane's `userData` colour. -/
def plane2DEntry (name : String) : Option (MeshId × PlaneConfig) :=
  ((List.range planeConfigs.length).zip planeConfigs).find? (fun p => p.2.name = name)

/-- The mesh ids of the ten 2-D proxy planes (`this.planes`). -/
def planes2DIds : List MeshId := List.range planeConfigs.length

def setMeshMaterial (s : ArenaState) (id : MeshId) (m : Material) : ArenaState :=
  { s with meshStore := fun i => if i = id then { s.meshStore i with material := m } else s.meshStore i }

def setMeshVisible (s : ArenaState) (id : MeshId) (v : Bool) : ArenaState :=
  { s with meshStore := fun i => if i = id then { s.meshStore i with visible := v } else s.meshStore i }

/-- A `forEach` loop assigning the same material to every mesh in `ids`. -/
def setAllMaterials (s : ArenaState) (ids : List MeshId) (m : Material) : ArenaState :=
  ids.foldl (fun st id => setMeshMaterial st id m) s

/-- A `forEach` loop assigning the same visibility to every mesh in `ids`. -/
def setAllVisible (s : ArenaState) (ids : List MeshId) (v : Bool) : ArenaState :=
  ids.foldl (fun st id => setMeshVisible st id v) s

/-- The fallback tint of a 2-D proxy plane (`transparent: true, opacity: 0.8,
side: DoubleSide`), as built both in `createPlanes` and in
`clearVideoFromPlane`. -/
def fallback2D (color : Nat) : Material := .phong color true (4/5) .double

/-- `video.pause()`, `URL.revokeObjectURL` when file-backed, `video.src = ''`,
`video.load()` — the release of one video element. -/
def releaseVideo (s : ArenaState) (v : VideoElem) : ArenaState :=
  let v1 := { v with paused := true }
  let p := match v1.objectUrl with
    | some u => ({ s with revokedUrls := s.revokedUrls ++ [u] }, { v1 with objectUrl := none })
    | none => (s, v1)
  let v2 := { p.2 with src := "" }
  { p.1 with releasedVideos := p.1.releasedVideos ++ [v2] }

/-- The `videos.forEach(video => …)` release loop in `clearVideoFromPlane`. -/
def releaseAllVideos (s : ArenaState) (vs : List VideoElem) : ArenaState :=
  vs.foldl releaseVideo s

/-- First block of `clearVideoFromPlane`: restore the 2-D proxy's tint. -/
def clearSurfaces2D (s : ArenaState) (planeName : String) : ArenaState :=
  match plane2DEntry planeName with
  | some (id, c) => setMeshMaterial s id (fallback2D c.color)
  | none => s

/-- Second block of `clearVideoFromPlane`: restore the 3-D surfaces' tints
(composite branches first, then the single-mesh branch). -/
def clearSurfaces3D (s : ArenaState) (planeName : String) : ArenaState :=
  if planeName = "A7" ∧ s.a7Parts ≠ [] then
    setAllMaterials s s.a7Parts (Material.phong 0xff6b6b false 1 .front)
  else if planeName = "BIG-MAP" ∧ s.bigMapPlanes ≠ [] then
    setAllMaterials s s.bigMapPlanes (Material.phong 0x4ecdc4 false 1 .front)
  else
    match s.model3DPlanes planeName with
    | some id =>
        let color := match findConfig planeName with
          | some c => c.color
          | none => 0x808080
        setMeshMaterial s id (Material.phong color false 1 .double)
    | none => s

/-- Third and fourth blocks of `clearVideoFromPlane`: release the plane's
video elements and dispose its textures, dropping both map entries. -/
def clearMediaMaps (s : ArenaState) (planeName : String) : ArenaState :=
  let s3 := match mapGet s.videoElements planeName with
    | some videos =>
        let s' := releaseAllVideos s videos
        { s' with videoElements := mapDelete s'.videoElements planeName }
    | none => s
  match mapGet s3.videoTextures planeName with
  | some textures =>
      { s3 with disposedTextures := s3.disposedTextures ++ textures,
                videoTextures := mapDelete s3.videoTextures planeName }
  | none => s3

/-- `Arena.clearVideoFromPlane`: the four blocks in source order. -/
def clearVideoFromPlane (s : ArenaState) (planeName : String) : ArenaState :=
  clearMediaMaps (clearSurfaces3D (clearSurfaces2D s planeName) planeName) planeName

/-- `this.videoElements.has(planeName)`. -/
def isVideoLoadedOnPlane (s : ArenaState) (planeName : String) : Bool :=
  (mapGet s.videoElements planeName).isSome

/-! ### `loadVideoOnPlane` (bindMedia), split at its await point -/

/-- The metadata the decoder reports on `loadedmetadata`. -/
structure VideoMeta where
  width : ℚ
  height : ℚ
  duration : ℚ
deriving DecidableEq, Repr

/-- Outcome of one asynchronous video load. -/
inductive LoadOutcome
  | failure
  | success (meta : VideoMeta)
deriving DecidableEq, Repr

/-- `document.createElement('video')` plus the source assignment: `loop`,
`muted`, paused; for a `File`, an object URL is created and remembered in
`dataset.objectUrl`. -/
def mkVideoElem (src : VideoSource) : VideoElem :=
  match src with
  | .url addr =>
      { src := addr, muted := true, paused := true, ended := false, loop := true,
        currentTime := 0, duration := 0, objectUrl := none }
  | .file f =>
      let u := "blob:" ++ f
      { src := u, muted := true, paused := true, ended := false, loop := true,
        currentTime := 0, duration := 0, objectUrl := some u }

/-- The synchronous part of `loadVideoOnPlane` before `await loadPromise`:
clear the plane, create the video element and start the load. -/
def bindPhase1 (s : ArenaState) (planeName : String) (src : VideoSource) :
    ArenaState × VideoElem :=
  (clearVideoFromPlane s planeName, mkVideoElem src)

/-- `shouldCullBackfaces` in `applyVideoMaterialToPlane`. -/
def videoSideFor (planeName : String) : Side :=
  if planeName = "A7" ∨ planeName = "BIG-MAP" then .front else .double

/-- The continuation of `loadVideoOnPlane` after `await loadPromise` resolved
with success: build one shared `VideoTexture`, apply the UV crop, assign the
video material to the 2-D proxy and to every 3-D surface of the plane, and on
success store the single video element and texture under the plane name. -/
def bindPhase2 (s : ArenaState) (planeName : String) (video : VideoElem)
    (meta : VideoMeta) : ArenaState × Bool :=
  let video := { video with duration := meta.duration }
  let t := s.nextTextureId
  let crop := applyUVMapping planeName (meta.width / meta.height)
  let s := { s with nextTextureId := t + 1,
                    textureStore := fun i => if i = t then some crop else s.textureStore i }
  let vmat := Material.videoPhong t (videoSideFor planeName)
  let p1 := match plane2DEntry planeName with
    | some (id, _) => (setMeshMaterial s id vmat, true)
    | none => (s, false)
  let p2 :=
    if planeName = "A7" ∧ p1.1.a7Parts ≠ [] then
      (setAllMaterials p1.1 p1.1.a7Parts vmat, true)
    else if planeName = "BIG-MAP" ∧ p1.1.bigMapPlanes ≠ [] then
      (setAllMaterials p1.1 p1.1.bigMapPlanes vmat, true)
    else
      match p1.1.model3DPlanes planeName with
      | some id => (setMeshMaterial p1.1 id vmat, true)
      | none => (p1.1, p1.2)
  if p2.2 then
    ({ p2.1 with videoElements := mapSet p2.1.videoElements planeName [video],
                 videoTextures := mapSet p2.1.videoTextures planeName [t] }, true)
  else (p2.1, false)

/-- `Arena.loadVideoOnPlane` run to completion with no interleaving: phase 1,
then the load resolves with `outcome`, then phase 2. -/
def loadVideoOnPlane (s : ArenaState) (planeName : String) (src : VideoSource)
    (outcome : LoadOutcome) : ArenaState × Bool :=
  let p := bindPhase1 s planeName src
  match outcome with
  | .failure => (p.1, false)
  | .success meta => bindPhase2 p.1 planeName p.2 meta

/-! ### Transport, playback info and audio -/

/-- `true` when `sub` occurs at the head of `l`. -/
def charsMatchAt : List Char → List Char → Bool
  | [], _ => true
  | _ :: _, [] => false
  | a :: as, b :: bs => a = b && charsMatchAt as bs

/-- `true` when `sub` occurs anywhere in `l`. -/
def charsHaveSub (sub : List Char) : List Char → Bool
  | [] => charsMatchAt sub []
  | b :: bs => charsMatchAt sub (b :: bs) || charsHaveSub sub bs

/-- `str.includes(sub)`. -/
def strIncludes (str sub : String) : Bool :=
  charsHaveSub sub.toList str.toList

/-- One video's treatment inside `playAllVideos`: play only when paused with a
valid source; blob-backed sources additionally need a live object URL. -/
def playVideo (v : VideoElem) : VideoElem :=
  if v.paused ∧ v.src ≠ "" ∧ ¬ strIncludes v.src "blob:" then
    { v with paused := false }
  else if v.paused ∧ v.src ≠ "" ∧ strIncludes v.src "blob:" then
    match v.objectUrl with
    | some _ => { v with paused := false }
    | none => v
  else v

/-- Apply `f` to every tracked video element of every plane. -/
def mapAllVideos (s : ArenaState) (f : VideoElem → VideoElem) : ArenaState :=
  { s with videoElements := s.videoElements.map (fun p => (p.1, p.2.map f)) }

/-- `Arena.playAllVideos`. -/
def playAllVideos (s : ArenaState) : ArenaState :=
  mapAllVideos s playVideo

/-- `Arena.pauseAllVideos`. -/
def pauseAllVideos (s : ArenaState) : ArenaState :=
  mapAllVideos s (fun v => { v with paused := true })

/-- `Arena.stopAndRewindAllVideos`. -/
def stopAndRewindAllVideos (s : ArenaState) : ArenaState :=
  mapAllVideos s (fun v => { v with paused := true, currentTime := 0 })

/-- One video's treatment inside `seekAllVideos` (`video.duration` is falsy —
`0` or `NaN` — exactly when no metadata is known). -/
def seekVideo (percentage : ℚ) (v : VideoElem) : VideoElem :=
  if v.duration ≠ 0 then { v with currentTime := percentage / 100 * v.duration } else v

/-- `Arena.seekAllVideos`. -/
def seekAllVideos (s : ArenaState) (percentage : ℚ) : ArenaState :=
  mapAllVideos s (seekVideo percentage)

structure PlaybackInfo where
  currentTime : ℚ
  duration : ℚ
  isPlaying : Bool
  videoCount : Nat
deriving DecidableEq, Repr

/-- `Arena.getVideoPlaybackInfo`: first video of the flattened arrays is the
reference; `videoCount` is the number of plane names in the map. -/
def getVideoPlaybackInfo (s : ArenaState) : PlaybackInfo :=
  match (s.videoElements.map Prod.snd).flatten with
  | [] => { currentTime := 0, duration := 0, isPlaying := false, videoCount := 0 }
  | v :: _ =>
      { currentTime := v.currentTime, duration := v.duration,
        isPlaying := !v.paused && !v.ended, videoCount := s.videoElements.length }

/-- `Arena.toggleGlobalAudio`. -/
def toggleGlobalAudio (s : ArenaState) : ArenaState × Bool :=
  let allVideos := (s.videoElements.map Prod.snd).flatten
  if allVideos.length = 0 then (s, false)
  else
    let newGlobalMutedState := allVideos.any (fun v => !v.muted)
    (mapAllVideos s (fun v => { v with muted := newGlobalMutedState }), newGlobalMutedState)

/-! ### 3-D model loading, mesh classification and mode switching -/

/-- One mesh of the loaded GLTF scene: its (fresh) id, its authored name and
its authored material. -/
structure GltfMesh where
  id : MeshId
  name : String
  material : Material
deriving DecidableEq, Repr

/-- `/^A7[0-9]+$/.test(meshName)`. -/
def isA7PartName (n : String) : Bool :=
  match n.toList with
  | 'A' :: '7' :: rest => !rest.isEmpty && rest.all Char.isDigit
  | _ => false

/-- `meshName.toLowerCase().includes(sub)`. -/
def lowerIncludes (n sub : String) : Bool :=
  strIncludes (String.mk (n.toList.map Char.toLower)) sub

def addMesh (s : ArenaState) (id : MeshId) (m : Mesh) : ArenaState :=
  { s with meshStore := fun i => if i = id then m else s.meshStore i }

def setOriginalMaterial (s : ArenaState) (id : MeshId) (m : Material) : ArenaState :=
  { s with originalMaterials := fun i => if i = id then some m else s.originalMaterials i }

def registerModel3DPlane (s : ArenaState) (name : String) (id : MeshId) : ArenaState :=
  { s with model3DPlanes := fun n => if n = name then some id else s.model3DPlanes n }

/-- The classification body of the `traverse` callback in `load3DModel`,
applied to one mesh of the asset. -/
def classifyMesh (s : ArenaState) (g : GltfMesh) : ArenaState :=
  let s := addMesh s g.id ⟨g.material, true⟩
  -- store the original material first for ALL meshes
  let s := setOriginalMaterial s g.id g.material
  let black : Material := .phong 0x000000 false 1 .double
  -- inner parts and Skeptrons variants get a black override
  let s :=
    if g.name = "K2 inner" ∨ g.name = "K4 inner" then
      setOriginalMaterial (setMeshMaterial s g.id black) g.id black
    else if g.name = "Skeptrons" ∨ g.name = "Skeptrons_Inside" ∨ g.name = "Skeptrons_Outside" then
      setOriginalMaterial (setMeshMaterial s g.id black) g.id black
    else s
  -- the source re-stores the (possibly overridden) current material
  let s := setOriginalMaterial s g.id (s.meshStore g.id).material
  let s :=
    if isA7PartName g.name then
      let m : Material := .phong 0xff6b6b false 1 .front
      let s := setOriginalMaterial (setMeshMaterial s g.id m) g.id m
      { s with a7Parts := s.a7Parts ++ [g.id] }
    else if g.name = "A0" ∨ g.name = "A6" ∨ g.name = "A8" ∨ g.name = "A9" then
      let m : Material := .phong 0x4ecdc4 false 1 .front
      let s := setOriginalMaterial (setMeshMaterial s g.id m) g.id m
      let s := { s with bigMapPlanes := s.bigMapPlanes ++ [g.id] }
      registerModel3DPlane s g.name g.id
    else if lowerIncludes g.name "ceiling" ∨ lowerIncludes g.name "roof" ∨
            lowerIncludes g.name "top" then
      let m : Material := .phong 0xf0f0f0 false 1 .double
      setOriginalMaterial (setMeshMaterial s g.id m) g.id m
    else s
  let s :=
    if (findConfig g.name).isSome then registerModel3DPlane s g.name g.id else s
  if g.name = "K2" ∨ g.name = "K4" then registerModel3DPlane s g.name g.id else s

/-- `Arena.load3DModel`, with the awaited GLTF scene passed in: a no-op when a
model is already resident; otherwise classifies every mesh, registers the
first A7 part as the representative for `A7`, and adds the model to the scene
initially hidden. -/
def load3DModel (s : ArenaState) (gltf : List GltfMesh) : ArenaState :=
  if s.model3DLoaded then s
  else
    let s := gltf.foldl classifyMesh s
    let s := match s.a7Parts with
      | [] => s
      | id :: _ => registerModel3DPlane s "A7" id
    { s with model3DLoaded := true, model3DVisible := false }

/-- `Arena.show2DMode`: show the 2-D proxies, hide the model, show labels. -/
def show2DMode (s : ArenaState) : ArenaState :=
  let s := setAllVisible s planes2DIds true
  let s := if s.model3DLoaded then { s with model3DVisible := false } else s
  { s with labels2DVisible := true }

/-- `Arena.show3DMode`: hide the 2-D proxies, show the model, hide labels. -/
def show3DMode (s : ArenaState) : ArenaState :=
  let s := setAllVisible s planes2DIds false
  let s := if s.model3DLoaded then { s with model3DVisible := true } else s
  { s with labels2DVisible := false }

/-- `Arena.setMode`: early return when already in the target mode; otherwise
record the mode and swap the visible surface set (loading the model first when
entering 3-D). -/
def setMode (s : ArenaState) (m : Mode) (gltf : List GltfMesh) : ArenaState :=
  if s.mode = m then s
  else
    let s := { s with mode := m }
    match m with
    | .three => show3DMode (load3DModel s gltf)
    | .two => show2DMode s

/-! ### Persisted model version (`loadModelVersionFromStorage`) -/

/-- Result of `localStorage.getItem`: the stored string, absence, or a thrown
storage error. -/
inductive StorageRead
  | failure
  | ok (value : Option String)
deriving DecidableEq, Repr

/-- Accumulate the leading decimal-digit run; `none` when no digit was seen
(`NaN`). -/
def digitsVal : List Char → Option Nat → Option Nat
  | [], acc => acc
  | c :: rest, acc =>
      if c.isDigit then digitsVal rest (some (acc.getD 0 * 10 + (c.toNat - 48)))
      else acc

/-- `parseInt(str, 10)`: skip leading whitespace, optional sign, then the
longest leading digit run; `none` is `NaN`. -/
def jsParseInt10 (str : String) : Option Int :=
  let cs := str.toList.dropWhile (fun c => c = ' ' ∨ c = '\t' ∨ c = '\n' ∨ c = '\r')
  match cs with
  | '-' :: rest => (digitsVal rest none).map (fun n => -(n : Int))
  | '+' :: rest => (digitsVal rest none).map (fun n => (n : Int))
  | _ => (digitsVal cs none).map (fun n => (n : Int))

/-- The default `currentModelVersion` (field initializer: `3`). -/
def defaultModelVersion : Int := 3

/-- `Arena.loadModelVersionFromStorage`, as a function of the storage read and
the current (default) version: adopt the stored value only when it parses to a
positive integer; otherwise — missing key, `NaN`, non-positive value or a
storage exception — keep the current version. -/
def loadModelVersionFromStorage (stored : StorageRead) (current : Int) : Int :=
  match stored with
  | .failure => current
  | .ok none => current
  | .ok (some str) =>
      match jsParseInt10 str with
      | some v => if v > 0 then v else current
      | none => current

/-! ### Concrete states for witnesses -/

/-- A mesh that no claim constrains. -/
def defaultMesh : Mesh := ⟨.phong 0x808080 false 1 .double, true⟩

/-- The mesh store right after `createPlanes`: the ten 2-D proxies at ids
`0..9` with their fallback tints. -/
def initMeshStore : MeshId → Mesh := fun i =>
  match planeConfigs.get? i with
  | some c => ⟨fallback2D c.color, true⟩
  | none => defaultMesh

/-- The `Arena` state right after the constructor ran `createPlanes` (the
initial mode is `'3d'`; no model resident yet, no media bound). -/
def initState : ArenaState where
  mode := .three
  meshStore := initMeshStore
  model3DLoaded := false
  model3DVisible := false
  model3DPlanes := fun _ => none
  a7Parts := []
  bigMapPlanes := []
  videoElements := []
  videoTextures := []
  textureStore := fun _ => none
  nextTextureId := 0
  originalMaterials := fun _ => none
  revokedUrls := []
  disposedTextures := []
  releasedVideos := []
  labels2DVisible := false
  currentModelVersion := 3

/-- A small concrete GLTF scene: three A7 parts, the four BIG-MAP parts, some
single-mesh planes and a ceiling mesh. -/
def demoGltf : List GltfMesh :=
  [ ⟨100, "A71", .authored 0⟩, ⟨101, "A72", .authored 1⟩, ⟨102, "A73", .authored 2⟩,
    ⟨110, "A0", .authored 3⟩, ⟨111, "A6", .authored 4⟩,
    ⟨112, "A8", .authored 5⟩, ⟨113, "A9", .authored 6⟩,
    ⟨120, "ICE", .authored 7⟩, ⟨121, "A1", .authored 8⟩, ⟨122, "K2", .authored 9⟩,
    ⟨130, "Ceiling_01", .authored 10⟩ ]

/-- The demo state with the 3-D model resident. -/
def loadedState : ArenaState := load3DModel initState demoGltf

/-- The 3-D surfaces that `Arena` treats as backing a plane name, following
the branch structure shared by `clearVideoFromPlane` and `loadVideoOnPlane`:
all A7 parts for `A7`, all BIG-MAP parts for `BIG-MAP` (when discovered),
otherwise the single mesh registered in `model3DPlanes`. -/
def surfaces3DFor (s : ArenaState) (name : String) : List MeshId :=
  if name = "A7" ∧ s.a7Parts ≠ [] then s.a7Parts
  else if name = "BIG-MAP" ∧ s.bigMapPlanes ≠ [] then s.bigMapPlanes
  else
    match s.model3DPlanes name with
    | some id => [id]
    | none => []

/-- The fallback tint `clearVideoFromPlane` applies to a plane's 3-D
surfaces, following the same branch structure as `clearSurfaces3D` /
`surfaces3DFor`. -/
def fallback3DFor (s : ArenaState) (name : String) : Material :=
  if name = "A7" ∧ s.a7Parts ≠ [] then .phong 0xff6b6b false 1 .front
  else if name = "BIG-MAP" ∧ s.bigMapPlanes ≠ [] then .phong 0x4ecdc4 false 1 .front
  else
    .phong (match findConfig name with | some c => c.color | none => 0x808080) false 1 .double

/-- The part list backing a composite plane name. -/
def compositePartsFor (s : ArenaState) (name : String) : List MeshId :=
  if name = "A7" then s.a7Parts
  else if name = "BIG-MAP" then s.bigMapPlanes
  else []

/-- The demo state with a video bound on `ICE` (bound while the model is
resident). -/
def boundICE : ArenaState :=
  (loadVideoOnPlane loadedState "ICE" (.url "ice.mp4") (.success ⟨16, 9, 60⟩)).1

/-- Result of an interleaved pair of binds: the state after the newer load
resolved, the state after the older (stale) load resolved last, and the two
success flags. -/
structure RaceResult where
  afterFast : ArenaState
  final : ArenaState
  okFast : Bool
  okSlow : Bool

/-- The rapid re-bind schedule of claim C1 on plane `ICE`: the `slow.mp4`
bind starts (phase 1), the `fast.mp4` bind starts (phase 1), the fast load
resolves (phase 2), and finally the slow load resolves (stale phase 2). -/
def staleBindRace : RaceResult :=
  let p1 := bindPhase1 loadedState "ICE" (.url "slow.mp4")
  let p2 := bindPhase1 p1.1 "ICE" (.url "fast.mp4")
  let q2 := bindPhase2 p2.1 "ICE" p2.2 ⟨16, 9, 30⟩
  let q1 := bindPhase2 q2.1 "ICE" p1.2 ⟨16, 9, 30⟩
  { afterFast := q2.1, final := q1.1, okFast := q2.2, okSlow := q1.2 }

/-! ## Lemmas -/

/-! ### Association-list maps -/

theorem mapGet_mapSet_self {α : Type} (l : List (String × α)) (k : String) (v : α) :
    mapGet (mapSet l k v) k = some v := by
  induction l with
  | nil => simp [mapSet, mapGet]
  | cons hd tl ih =>
      obtain ⟨k', v'⟩ := hd
      by_cases h : k' = k
      · simp [mapSet, h, mapGet]
      · simp [mapSet, h, mapGet, ih]

theorem mapGet_mapSet_ne {α : Type} (l : List (String × α)) (k k' : String) (v : α)
    (h : k' ≠ k) : mapGet (mapSet l k v) k' = mapGet l k' := by
  induction l with
  | nil => simp [mapSet, mapGet, Ne.symm h]
  | cons hd tl ih =>
      obtain ⟨k₀, v₀⟩ := hd
      by_cases h₀ : k₀ = k
      · subst h₀
        simp [mapSet, mapGet, Ne.symm h]
      · simp only [mapSet, if_neg h₀, mapGet]
        by_cases h₁ : k₀ = k'
        · simp [h₁]
        · simp [h₁, ih]

theorem mapGet_map_snd {α β : Type} (l : List (String × α)) (f : α → β) (k : String) :
    mapGet (l.map (fun p => (p.1, f p.2))) k = (mapGet l k).map f := by
  induction l with
  | nil => simp [mapGet]
  | cons hd tl ih =>
      obtain ⟨k₀, v₀⟩ := hd
      by_cases h : k₀ = k
      · simp [mapGet, h]
      · simp [mapGet, h, ih]

/-! ### Frame lemmas for the mesh-store primitives -/

@[simp] theorem setMeshMaterial_material_self (s : ArenaState) (id : MeshId) (m : Material) :
    ((setMeshMaterial s id m).meshStore id).material = m := by
  simp [setMeshMaterial]

theorem setMeshMaterial_material_ne (s : ArenaState) (id i : MeshId) (m : Material)
    (h : i ≠ id) : ((setMeshMaterial s id m).meshStore i).material = (s.meshStore i).material := by
  simp [setMeshMaterial, h]

@[simp] theorem setMeshMaterial_visible (s : ArenaState) (id : MeshId) (m : Material)
    (i : MeshId) : ((setMeshMaterial s id m).meshStore i).visible = (s.meshStore i).visible := by
  simp only [setMeshMaterial]
  by_cases h : i = id <;> simp [h]

@[simp] theorem setMeshMaterial_mode (s : ArenaState) (id : MeshId) (m : Material) :
    (setMeshMaterial s id m).mode = s.mode := rfl

@[simp] theorem setMeshMaterial_model3DLoaded (s : ArenaState) (id : MeshId) (m : Material) :
    (setMeshMaterial s id m).model3DLoaded = s.model3DLoaded := rfl

@[simp] theorem setMeshMaterial_model3DVisible (s : ArenaState) (id : MeshId) (m : Material) :
    (setMeshMaterial s id m).model3DVisible = s.model3DVisible := rfl

@[simp] theorem setMeshMaterial_model3DPlanes (s : ArenaState) (id : MeshId) (m : Material) :
    (setMeshMaterial s id m).model3DPlanes = s.model3DPlanes := rfl

@[simp] theorem setMeshMaterial_a7Parts (s : ArenaState) (id : MeshId) (m : Material) :
    (setMeshMaterial s id m).a7Parts = s.a7Parts := rfl

@[simp] theorem setMeshMaterial_bigMapPlanes (s : ArenaState) (id : MeshId) (m : Material) :
    (setMeshMaterial s id m).bigMapPlanes = s.bigMapPlanes := rfl

@[simp] theorem setMeshMaterial_videoElements (s : ArenaState) (id : MeshId) (m : Material) :
    (setMeshMaterial s id m).videoElements = s.videoElements := rfl

@[simp] theorem setMeshMaterial_videoTextures (s : ArenaState) (id : MeshId) (m : Material) :
    (setMeshMaterial s id m).videoTextures = s.videoTextures := rfl

@[simp] theorem setMeshMaterial_nextTextureId (s : ArenaState) (id : MeshId) (m : Material) :
    (setMeshMaterial s id m).nextTextureId = s.nextTextureId := rfl

@[simp] theorem setMeshMaterial_revokedUrls (s : ArenaState) (id : MeshId) (m : Material) :
    (setMeshMaterial s id m).revokedUrls = s.revokedUrls := rfl

@[simp] theorem setMeshMaterial_disposedTextures (s : ArenaState) (id : MeshId) (m : Material) :
    (setMeshMaterial s id m).disposedTextures = s.disposedTextures := rfl

@[simp] theorem setMeshMaterial_releasedVideos (s : ArenaState) (id : MeshId) (m : Material) :
    (setMeshMaterial s id m).releasedVideos = s.releasedVideos := rfl

@[simp] theorem setMeshVisible_material (s : ArenaState) (id : MeshId) (v : Bool)
    (i : MeshId) : ((setMeshVisible s id v).meshStore i).material = (s.meshStore i).material := by
  simp only [setMeshVisible]
  by_cases h : i = id <;> simp [h]

@[simp] theorem setMeshVisible_mode (s : ArenaState) (id : MeshId) (v : Bool) :
    (setMeshVisible s id v).mode = s.mode := rfl

@[simp] theorem setMeshVisible_model3DLoaded (s : ArenaState) (id : MeshId) (v : Bool) :
    (setMeshVisible s id v).model3DLoaded = s.model3DLoaded := rfl

@[simp] theorem setMeshVisible_videoElements (s : ArenaState) (id : MeshId) (v : Bool) :
    (setMeshVisible s id v).videoElements = s.videoElements := rfl

@[simp] theorem setMeshVisible_videoTextures (s : ArenaState) (id : MeshId) (v : Bool) :
    (setMeshVisible s id v).videoTextures = s.videoTextures := rfl

/-! ### Lemmas on the `forEach` loops -/

@[simp] theorem setAllMaterials_nil (s : ArenaState) (m : Material) :
    setAllMaterials s [] m = s := rfl

@[simp] theorem setAllMaterials_cons (s : ArenaState) (id : MeshId) (ids : List MeshId)
    (m : Material) :
    setAllMaterials s (id :: ids) m = setAllMaterials (setMeshMaterial s id m) ids m := rfl

theorem setAllMaterials_material_of_eq (ids : List MeshId) (m : Material) (s : ArenaState)
    (i : MeshId) (h : (s.meshStore i).material = m) :
    ((setAllMaterials s ids m).meshStore i).material = m := by
  induction ids generalizing s with
  | nil => simpa using h
  | cons hd tl ih =>
      rw [setAllMaterials_cons]
      refine ih _ ?_
      by_cases hi : i = hd
      · subst hi; simp
      · rw [setMeshMaterial_material_ne _ _ _ _ hi]; exact h

theorem setAllMaterials_material_mem (ids : List MeshId) (m : Material) (s : ArenaState)
    (i : MeshId) (h : i ∈ ids) :
    ((setAllMaterials s ids m).meshStore i).material = m := by
  induction ids generalizing s with
  | nil => cases h
  | cons hd tl ih =>
      rw [setAllMaterials_cons]
      rcases List.mem_cons.1 h with h | h
      · subst h
        exact setAllMaterials_material_of_eq _ _ _ _ (by simp)
      · exact ih _ h

theorem setAllMaterials_material_notMem (ids : List MeshId) (m : Material) (s : ArenaState)
    (i : MeshId) (h : i ∉ ids) :
    ((setAllMaterials s ids m).meshStore i).material = (s.meshStore i).material := by
  induction ids generalizing s with
  | nil => rfl
  | cons hd tl ih =>
      rw [setAllMaterials_cons]
      rw [ih _ (fun hmem => h (List.mem_cons_of_mem _ hmem))]
      exact setMeshMaterial_material_ne _ _ _ _ (fun hi => h (hi ▸ List.mem_cons_self _ _))

@[simp] theorem setAllMaterials_visible (ids : List MeshId) (m : Material) (s : ArenaState)
    (i : MeshId) :
    ((setAllMaterials s ids m).meshStore i).visible = (s.meshStore i).visible := by
  induction ids generalizing s with
  | nil => rfl
  | cons hd tl ih => rw [setAllMaterials_cons, ih]; simp

@[simp] theorem setAllMaterials_a7Parts (ids : List MeshId) (m : Material) (s : ArenaState) :
    (setAllMaterials s ids m).a7Parts = s.a7Parts := by
  induction ids generalizing s with
  | nil => rfl
  | cons hd tl ih => rw [setAllMaterials_cons, ih]; rfl

@[simp] theorem setAllMaterials_bigMapPlanes (ids : List MeshId) (m : Material) (s : ArenaState) :
    (setAllMaterials s ids m).bigMapPlanes = s.bigMapPlanes := by
  induction ids generalizing s with
  | nil => rfl
  | cons hd tl ih => rw [setAllMaterials_cons, ih]; rfl

@[simp] theorem setAllMaterials_model3DPlanes (ids : List MeshId) (m : Material) (s : ArenaState) :
    (setAllMaterials s ids m).model3DPlanes = s.model3DPlanes := by
  induction ids generalizing s with
  | nil => rfl
  | cons hd tl ih => rw [setAllMaterials_cons, ih]; rfl

@[simp] theorem setAllMaterials_videoElements (ids : List MeshId) (m : Material) (s : ArenaState) :
    (setAllMaterials s ids m).videoElements = s.videoElements := by
  induction ids generalizing s with
  | nil => rfl
  | cons hd tl ih => rw [setAllMaterials_cons, ih]; rfl

@[simp] theorem setAllMaterials_videoTextures (ids : List MeshId) (m : Material) (s : ArenaState) :
    (setAllMaterials s ids m).videoTextures = s.videoTextures := by
  induction ids generalizing s with
  | nil => rfl
  | cons hd tl ih => rw [setAllMaterials_cons, ih]; rfl

@[simp] theorem setAllMaterials_nextTextureId (ids : List MeshId) (m : Material) (s : ArenaState) :
    (setAllMaterials s ids m).nextTextureId = s.nextTextureId := by
  induction ids generalizing s with
  | nil => rfl
  | cons hd tl ih => rw [setAllMaterials_cons, ih]; rfl

@[simp] theorem setAllMaterials_revokedUrls (ids : List MeshId) (m : Material) (s : ArenaState) :
    (setAllMaterials s ids m).revokedUrls = s.revokedUrls := by
  induction ids generalizing s with
  | nil => rfl
  | cons hd tl ih => rw [setAllMaterials_cons, ih]; rfl

@[simp] theorem setAllMaterials_disposedTextures (ids : List MeshId) (m : Material)
    (s : ArenaState) : (setAllMaterials s ids m).disposedTextures = s.disposedTextures := by
  induction ids generalizing s with
  | nil => rfl
  | cons hd tl ih => rw [setAllMaterials_cons, ih]; rfl

@[simp] theorem setAllMaterials_releasedVideos (ids : List MeshId) (m : Material)
    (s : ArenaState) : (setAllMaterials s ids m).releasedVideos = s.releasedVideos := by
  induction ids generalizing s with
  | nil => rfl
  | cons hd tl ih => rw [setAllMaterials_cons, ih]; rfl

@[simp] theorem setAllMaterials_model3DLoaded (ids : List MeshId) (m : Material)
    (s : ArenaState) : (setAllMaterials s ids m).model3DLoaded = s.model3DLoaded := by
  induction ids generalizing s with
  | nil => rfl
  | cons hd tl ih => rw [setAllMaterials_cons, ih]; rfl

@[simp] theorem setAllVisible_nil (s : ArenaState) (v : Bool) :
    setAllVisible s [] v = s := rfl

@[simp] theorem setAllVisible_cons (s : ArenaState) (id : MeshId) (ids : List MeshId) (v : Bool) :
    setAllVisible s (id :: ids) v = setAllVisible (setMeshVisible s id v) ids v := rfl

@[simp] theorem setAllVisible_material (ids : List MeshId) (v : Bool) (s : ArenaState)
    (i : MeshId) :
    ((setAllVisible s ids v).meshStore i).material = (s.meshStore i).material := by
  induction ids generalizing s with
  | nil => rfl
  | cons hd tl ih => rw [setAllVisible_cons, ih]; simp

@[simp] theorem setAllVisible_videoElements (ids : List MeshId) (v : Bool) (s : ArenaState) :
    (setAllVisible s ids v).videoElements = s.videoElements := by
  induction ids generalizing s with
  | nil => rfl
  | cons hd tl ih => rw [setAllVisible_cons, ih]; rfl

@[simp] theorem setAllVisible_videoTextures (ids : List MeshId) (v : Bool) (s : ArenaState) :
    (setAllVisible s ids v).videoTextures = s.videoTextures := by
  induction ids generalizing s with
  | nil => rfl
  | cons hd tl ih => rw [setAllVisible_cons, ih]; rfl

@[simp] theorem setAllVisible_model3DLoaded (ids : List MeshId) (v : Bool) (s : ArenaState) :
    (setAllVisible s ids v).model3DLoaded = s.model3DLoaded := by
  induction ids generalizing s with
  | nil => rfl
  | cons hd tl ih => rw [setAllVisible_cons, ih]; rfl

/-! ### Lemmas on `releaseVideo` -/

@[simp] theorem releaseVideo_meshStore (s : ArenaState) (v : VideoElem) :
    (releaseVideo s v).meshStore = s.meshStore := by
  rw [releaseVideo]; cases v.objectUrl <;> rfl

@[simp] theorem releaseVideo_videoElements (s : ArenaState) (v : VideoElem) :
    (releaseVideo s v).videoElements = s.videoElements := by
  rw [releaseVideo]; cases v.objectUrl <;> rfl

@[simp] theorem releaseVideo_videoTextures (s : ArenaState) (v : VideoElem) :
    (releaseVideo s v).videoTextures = s.videoTextures := by
  rw [releaseVideo]; cases v.objectUrl <;> rfl

@[simp] theorem releaseVideo_a7Parts (s : ArenaState) (v : VideoElem) :
    (releaseVideo s v).a7Parts = s.a7Parts := by
  rw [releaseVideo]; cases v.objectUrl <;> rfl

@[simp] theorem releaseVideo_bigMapPlanes (s : ArenaState) (v : VideoElem) :
    (releaseVideo s v).bigMapPlanes = s.bigMapPlanes := by
  rw [releaseVideo]; cases v.objectUrl <;> rfl

@[simp] theorem releaseVideo_model3DPlanes (s : ArenaState) (v : VideoElem) :
    (releaseVideo s v).model3DPlanes = s.model3DPlanes := by
  rw [releaseVideo]; cases v.objectUrl <;> rfl

@[simp] theorem releaseVideo_disposedTextures (s : ArenaState) (v : VideoElem) :
    (releaseVideo s v).disposedTextures = s.disposedTextures := by
  rw [releaseVideo]; cases v.objectUrl <;> rfl

theorem releaseVideo_releasedVideos (s : ArenaState) (v : VideoElem) :
    (releaseVideo s v).releasedVideos =
      s.releasedVideos ++ [{ v with paused := true, src := "", objectUrl := none }] := by
  rw [releaseVideo]; cases h : v.objectUrl <;> simp

theorem releaseVideo_revokedUrls_none (s : ArenaState) (v : VideoElem)
    (h : v.objectUrl = none) : (releaseVideo s v).revokedUrls = s.revokedUrls := by
  rw [releaseVideo, h]

theorem releaseVideo_revokedUrls_some (s : ArenaState) (v : VideoElem) (u : String)
    (h : v.objectUrl = some u) :
    (releaseVideo s v).revokedUrls = s.revokedUrls ++ [u] := by
  rw [releaseVideo, h]

@[simp] theorem releaseAllVideos_nil (s : ArenaState) : releaseAllVideos s [] = s := rfl

@[simp] theorem releaseAllVideos_cons (s : ArenaState) (v : VideoElem) (vs : List VideoElem) :
    releaseAllVideos s (v :: vs) = releaseAllVideos (releaseVideo s v) vs := rfl

@[simp] theorem releaseAllVideos_meshStore (vs : List VideoElem) (s : ArenaState) :
    (releaseAllVideos s vs).meshStore = s.meshStore := by
  induction vs generalizing s with
  | nil => rfl
  | cons v vs ih => rw [releaseAllVideos_cons, ih, releaseVideo_meshStore]

@[simp] theorem releaseAllVideos_videoElements (vs : List VideoElem) (s : ArenaState) :
    (releaseAllVideos s vs).videoElements = s.videoElements := by
  induction vs generalizing s with
  | nil => rfl
  | cons v vs ih => rw [releaseAllVideos_cons, ih, releaseVideo_videoElements]

@[simp] theorem releaseAllVideos_videoTextures (vs : List VideoElem) (s : ArenaState) :
    (releaseAllVideos s vs).videoTextures = s.videoTextures := by
  induction vs generalizing s with
  | nil => rfl
  | cons v vs ih => rw [releaseAllVideos_cons, ih, releaseVideo_videoTextures]

@[simp] theorem releaseAllVideos_a7Parts (vs : List VideoElem) (s : ArenaState) :
    (releaseAllVideos s vs).a7Parts = s.a7Parts := by
  induction vs generalizing s with
  | nil => rfl
  | cons v vs ih => rw [releaseAllVideos_cons, ih, releaseVideo_a7Parts]

@[simp] theorem releaseAllVideos_bigMapPlanes (vs : List VideoElem) (s : ArenaState) :
    (releaseAllVideos s vs).bigMapPlanes = s.bigMapPlanes := by
  induction vs generalizing s with
  | nil => rfl
  | cons v vs ih => rw [releaseAllVideos_cons, ih, releaseVideo_bigMapPlanes]

@[simp] theorem releaseAllVideos_model3DPlanes (vs : List VideoElem) (s : ArenaState) :
    (releaseAllVideos s vs).model3DPlanes = s.model3DPlanes := by
  induction vs generalizing s with
  | nil => rfl
  | cons v vs ih => rw [releaseAllVideos_cons, ih, releaseVideo_model3DPlanes]

@[simp] theorem releaseVideo_nextTextureId (s : ArenaState) (v : VideoElem) :
    (releaseVideo s v).nextTextureId = s.nextTextureId := by
  rw [releaseVideo]; cases v.objectUrl <;> rfl

@[simp] theorem releaseVideo_mode (s : ArenaState) (v : VideoElem) :
    (releaseVideo s v).mode = s.mode := by
  rw [releaseVideo]; cases v.objectUrl <;> rfl

@[simp] theorem releaseVideo_model3DLoaded (s : ArenaState) (v : VideoElem) :
    (releaseVideo s v).model3DLoaded = s.model3DLoaded := by
  rw [releaseVideo]; cases v.objectUrl <;> rfl

@[simp] theorem releaseAllVideos_nextTextureId (vs : List VideoElem) (s : ArenaState) :
    (releaseAllVideos s vs).nextTextureId = s.nextTextureId := by
  induction vs generalizing s with
  | nil => rfl
  | cons v vs ih => rw [releaseAllVideos_cons, ih, releaseVideo_nextTextureId]

theorem clearSurfaces2D_frame (s : ArenaState) (n : String) :
    (clearSurfaces2D s n).a7Parts = s.a7Parts ∧
    (clearSurfaces2D s n).bigMapPlanes = s.bigMapPlanes ∧
    (clearSurfaces2D s n).model3DPlanes = s.model3DPlanes ∧
    (clearSurfaces2D s n).nextTextureId = s.nextTextureId ∧
    (clearSurfaces2D s n).videoElements = s.videoElements ∧
    (clearSurfaces2D s n).videoTextures = s.videoTextures ∧
    (clearSurfaces2D s n).revokedUrls = s.revokedUrls ∧
    (clearSurfaces2D s n).disposedTextures = s.disposedTextures ∧
    (clearSurfaces2D s n).releasedVideos = s.releasedVideos ∧
    (∀ i, ((clearSurfaces2D s n).meshStore i).visible = (s.meshStore i).visible) := by
  rw [clearSurfaces2D]
  repeat' split
  all_goals simp

theorem clearSurfaces3D_frame (s : ArenaState) (n : String) :
    (clearSurfaces3D s n).a7Parts = s.a7Parts ∧
    (clearSurfaces3D s n).bigMapPlanes = s.bigMapPlanes ∧
    (clearSurfaces3D s n).model3DPlanes = s.model3DPlanes ∧
    (clearSurfaces3D s n).nextTextureId = s.nextTextureId ∧
    (clearSurfaces3D s n).videoElements = s.videoElements ∧
    (clearSurfaces3D s n).videoTextures = s.videoTextures ∧
    (clearSurfaces3D s n).revokedUrls = s.revokedUrls ∧
    (clearSurfaces3D s n).disposedTextures = s.disposedTextures ∧
    (clearSurfaces3D s n).releasedVideos = s.releasedVideos ∧
    (∀ i, ((clearSurfaces3D s n).meshStore i).visible = (s.meshStore i).visible) := by
  rw [clearSurfaces3D]
  repeat' split
  all_goals simp

theorem clearMediaMaps_frame (s : ArenaState) (n : String) :
    (clearMediaMaps s n).a7Parts = s.a7Parts ∧
    (clearMediaMaps s n).bigMapPlanes = s.bigMapPlanes ∧
    (clearMediaMaps s n).model3DPlanes = s.model3DPlanes ∧
    (clearMediaMaps s n).nextTextureId = s.nextTextureId ∧
    (clearMediaMaps s n).meshStore = s.meshStore := by
  rw [clearMediaMaps]
  dsimp only
  repeat' split
  all_goals simp

/-- `clearVideoFromPlane` only swaps materials and releases media: the
part lists, the 3-D registry, the texture counter and every mesh's visibility
are untouched. -/
theorem clearVideoFromPlane_frame (s : ArenaState) (n : String) :
    (clearVideoFromPlane s n).a7Parts = s.a7Parts ∧
    (clearVideoFromPlane s n).bigMapPlanes = s.bigMapPlanes ∧
    (clearVideoFromPlane s n).model3DPlanes = s.model3DPlanes ∧
    (clearVideoFromPlane s n).nextTextureId = s.nextTextureId ∧
    (∀ i, ((clearVideoFromPlane s n).meshStore i).visible = (s.meshStore i).visible) := by
  have h1 := clearSurfaces2D_frame s n
  have h2 := clearSurfaces3D_frame (clearSurfaces2D s n) n
  have h3 := clearMediaMaps_frame (clearSurfaces3D (clearSurfaces2D s n) n) n
  rw [clearVideoFromPlane]
  refine ⟨?_, ?_, ?_, ?_, ?_⟩
  · rw [h3.1, h2.1, h1.1]
  · rw [h3.2.1, h2.2.1, h1.2.1]
  · rw [h3.2.2.1, h2.2.2.1, h1.2.2.1]
  · rw [h3.2.2.2.1, h2.2.2.2.1, h1.2.2.2.1]
  · intro i
    rw [h3.2.2.2.2]
    rw [h2.2.2.2.2.2.2.2.2.2 i, h1.2.2.2.2.2.2.2.2.2 i]

/-! ### UV crop lemmas -/

theorem applyUVMapping_eq_cropFor {name : String} {c : PlaneConfig} (m : ℚ)
    (h : findConfig name = some c) :
    applyUVMapping name m = cropFor (c.width / c.height) m name := by
  rw [applyUVMapping, h]

theorem minScaleFor_pos (name : String) : 0 < minScaleFor name := by
  rw [minScaleFor]
  split
  · norm_num
  · split <;> norm_num

theorem minScaleFor_le_one (name : String) : minScaleFor name ≤ 1 := by
  rw [minScaleFor]
  split
  · norm_num
  · split <;> norm_num

/-! ## Claims -/

/-- C5: The UV crop computation is the identity when the ratios are close:
for every target aspect ratio `t` and media aspect ratio `m` with
`|m - t| ≤ 0.1` — in particular for every pair of equal ratios — the computed
crop is `scaleX = 1`, `scaleY = 1`, `offsetX = 0`, `offsetY = 0`. -/
theorem crop_identity_within_tolerance (t m : ℚ) (planeName : String)
    (h : |m - t| ≤ 1/10) :
    cropFor t m planeName = { scaleX := 1, scaleY := 1, offsetX := 0, offsetY := 0 } := by
  rw [cropFor, if_neg (not_lt.2 h)]

/-- Witness for C5 at the equal pair `t = m = 16/9` (and, through
`applyUVMapping`, at the catalog plane `ICE` whose ratio 2 is within the
tolerance of a 1.91:1 video). -/
theorem crop_identity_within_tolerance_witness :
    |(16/9 : ℚ) - 16/9| ≤ 1/10 ∧
      cropFor (16/9) (16/9) "ICE" = { scaleX := 1, scaleY := 1, offsetX := 0, offsetY := 0 } :=
  ⟨by norm_num, crop_identity_within_tolerance (16/9) (16/9) "ICE" (by norm_num)⟩

/-- C6: For every pair of positive target and media aspect ratios and every
plane name, the crop scales satisfy `0 < scaleX ≤ 1` and `0 < scaleY ≤ 1`,
across all three branches of the computation. -/
theorem crop_scales_in_unit_interval (t m : ℚ) (planeName : String)
    (ht : 0 < t) (hm : 0 < m) :
    (0 < (cropFor t m planeName).scaleX ∧ (cropFor t m planeName).scaleX ≤ 1) ∧
    (0 < (cropFor t m planeName).scaleY ∧ (cropFor t m planeName).scaleY ≤ 1) := by
  rw [cropFor]
  split
  · split
    · -- vertical crop branch: scaleY = max minScale (m/t)
      rename_i hmt
      constructor
      · exact ⟨one_pos, le_refl 1⟩
      · constructor
        · exact lt_of_lt_of_le (minScaleFor_pos planeName) (le_max_left _ _)
        · exact max_le (minScaleFor_le_one planeName) ((div_le_one ht).2 hmt.le)
    · -- horizontal crop branch: scaleX = max 0.001 (t/m)
      rename_i hmt
      constructor
      · constructor
        · exact lt_of_lt_of_le (by norm_num) (le_max_left _ _)
        · exact max_le (by norm_num) ((div_le_one hm).2 (not_lt.1 hmt))
      · exact ⟨one_pos, le_refl 1⟩
  · -- identity branch
    exact ⟨⟨one_pos, le_refl 1⟩, one_pos, le_refl 1⟩

/-- Witness for C6 at the degenerate pair target `32.5`, media `1.77`
(an `A1`-like extreme ratio against a 16:9-like video). -/
theorem crop_scales_in_unit_interval_witness :
    (0 : ℚ) < 65/2 ∧ (0 : ℚ) < 177/100 ∧
      ((0 < (cropFor (65/2) (177/100) "A1").scaleX ∧ (cropFor (65/2) (177/100) "A1").scaleX ≤ 1) ∧
       (0 < (cropFor (65/2) (177/100) "A1").scaleY ∧ (cropFor (65/2) (177/100) "A1").scaleY ≤ 1)) :=
  ⟨by norm_num, by norm_num,
   crop_scales_in_unit_interval (65/2) (177/100) "A1" (by norm_num) (by norm_num)⟩

/-- C7: Per-plane floor clamping of the vertical crop: plane `A1`
(`10512×144`, target ratio 73) with a 16:9 video yields `scaleY` equal to the
configured floor `0.1` (not the raw quotient `16/657 ≈ 0.024`), `scaleX = 1`,
`offsetX = 0`, and `offsetY` recentred around the clamped scale,
`(1 - 0.1)/2 = 0.45`; the floor table gives `0.1` exactly to `A7`/`A1`/`A2`
and a strictly smaller floor to every other plane name. -/
theorem a1_vertical_crop_floor_clamped :
    applyUVMapping "A1" (16/9) =
      { scaleX := 1, scaleY := 1/10, offsetX := 0, offsetY := 9/20 } ∧
    (16/9 : ℚ) / (10512/144) < 1/10 ∧
    minScaleFor "A7" = 1/10 ∧ minScaleFor "A1" = 1/10 ∧ minScaleFor "A2" = 1/10 ∧
    (∀ n : String, n ≠ "A7" → n ≠ "A1" → n ≠ "A2" → minScaleFor n < 1/10) := by
  refine ⟨?_, by norm_num, by norm_num [minScaleFor], by norm_num [minScaleFor],
    by norm_num [minScaleFor], ?_⟩
  · rw [applyUVMapping_eq_cropFor (16/9)
      (rfl : findConfig "A1" = some ⟨"A1", 10512, 144, 0x96ceb4⟩)]
    rw [cropFor]
    rw [abs_of_nonpos (by norm_num)]
    norm_num [minScaleFor]
  · intro n h7 h1 h2
    rw [minScaleFor, if_neg (by simp [h7, h1, h2])]
    split <;> norm_num

/-- Witness for C7's universally quantified floor-table part, at `K2` and
`ICE`. -/
theorem a1_vertical_crop_floor_clamped_witness :
    minScaleFor "K2" < 1/10 ∧ minScaleFor "ICE" < 1/10 :=
  ⟨a1_vertical_crop_floor_clamped.2.2.2.2.2 "K2" (by decide) (by decide) (by decide),
   a1_vertical_crop_floor_clamped.2.2.2.2.2 "ICE" (by decide) (by decide) (by decide)⟩

theorem maxDimension_eq : maxDimension = 10800 := by
  norm_num [maxDimension, planeConfigs]

theorem scaleFactor_ne_zero : scaleFactor ≠ 0 := by
  rw [scaleFactor, maxDimension_eq]; norm_num

/-- C8 (amended): Ratio preservation holds for the *scaled* dimensions:
for every catalog entry, `scaledWidth/scaledHeight` equals
`physicalWidth/physicalHeight` exactly.  (It does **not** survive the 0.5
minimum-visible-size floor — see the counterexample.) -/
theorem layout_scaled_ratio_preserved (c : PlaneConfig) (_hc : c ∈ planeConfigs) :
    scaledWidth c / scaledHeight c = c.width / c.height := by
  rw [scaledWidth, scaledHeight, mul_div_mul_right _ _ scaleFactor_ne_zero]

/-- Witness for C8's amended theorem at the `A7` catalog entry. -/
theorem layout_scaled_ratio_preserved_witness :
    (⟨"A7", 6240, 192, 0xff6b6b⟩ : PlaneConfig) ∈ planeConfigs ∧
      scaledWidth ⟨"A7", 6240, 192, 0xff6b6b⟩ / scaledHeight ⟨"A7", 6240, 192, 0xff6b6b⟩ =
        (6240 : ℚ) / 192 :=
  ⟨List.mem_cons_self _ _,
   layout_scaled_ratio_preserved ⟨"A7", 6240, 192, 0xff6b6b⟩ (List.mem_cons_self _ _)⟩

/-- C8 counterexample: The claim as stated fails for the dimensions
actually used for the rendered geometry: for catalog plane `A7`
(6240×192, ratio 32.5) the minimum-visible-size floor raises the height to
`0.5` while the width stays `26/3`, so the rendered ratio is `52/3 ≈ 17.3`,
not `32.5`. -/
theorem layout_visible_ratio_broken_for_A7 :
    (⟨"A7", 6240, 192, 0xff6b6b⟩ : PlaneConfig) ∈ planeConfigs ∧
    scaledHeight ⟨"A7", 6240, 192, 0xff6b6b⟩ < minSize ∧
    visibleWidth ⟨"A7", 6240, 192, 0xff6b6b⟩ / visibleHeight ⟨"A7", 6240, 192, 0xff6b6b⟩ ≠
      (6240 : ℚ) / 192 := by
  refine ⟨List.mem_cons_self _ _, ?_, ?_⟩
  · rw [scaledHeight, scaleFactor, maxDimension_eq, minSize]; norm_num
  · rw [visibleWidth, visibleHeight, scaledWidth, scaledHeight, scaleFactor,
      maxDimension_eq, minSize]
    norm_num

/-- C9: Loading the persisted model version validates the stored value:
a stored string that parses (as `parseInt(·,10)`) to a positive integer
becomes the current model version; a missing key, a non-numeric string, a
non-positive value or a storage failure all silently fall back to the default
`3`; and the resulting version is positive in every case. -/
theorem loadModelVersion_validated (stored : StorageRead) :
    0 < loadModelVersionFromStorage stored defaultModelVersion ∧
    (∀ str v, stored = .ok (some str) → jsParseInt10 str = some v → 0 < v →
        loadModelVersionFromStorage stored defaultModelVersion = v) ∧
    (stored = .failure → loadModelVersionFromStorage stored defaultModelVersion = 3) ∧
    (stored = .ok none → loadModelVersionFromStorage stored defaultModelVersion = 3) ∧
    (∀ str, stored = .ok (some str) → jsParseInt10 str = none →
        loadModelVersionFromStorage stored defaultModelVersion = 3) ∧
    (∀ str v, stored = .ok (some str) → jsParseInt10 str = some v → v ≤ 0 →
        loadModelVersionFromStorage stored defaultModelVersion = 3) := by
  cases stored with
  | failure => simp [loadModelVersionFromStorage, defaultModelVersion]
  | ok val =>
      cases val with
      | none => simp [loadModelVersionFromStorage, defaultModelVersion]
      | some str =>
          cases hp : jsParseInt10 str with
          | none =>
              refine ⟨by simp [loadModelVersionFromStorage, hp, defaultModelVersion],
                ?_, ?_, ?_, ?_, ?_⟩
              · intro str' v hs hpv _
                cases hs
                rw [hp] at hpv
                cases hpv
              · intro h; cases h
              · intro h; cases h
              · intro str' hs _
                simp [loadModelVersionFromStorage, hp, defaultModelVersion]
              · intro str' v hs hpv _
                cases hs
                rw [hp] at hpv
                cases hpv
          | some v =>
              by_cases hv : 0 < v
              · simp only [loadModelVersionFromStorage, hp, if_pos hv]
                refine ⟨hv, ?_, ?_, ?_, ?_, ?_⟩
                · intro str' v' hs hpv _
                  cases hs
                  rw [hp] at hpv
                  exact Option.some.inj hpv
                · intro h; cases h
                · intro h; cases h
                · intro str' hs hpn
                  cases hs
                  rw [hp] at hpn
                  cases hpn
                · intro str' v' hs hpv hle
                  cases hs
                  rw [hp] at hpv
                  cases Option.some.inj hpv
                  exact absurd hv (not_lt.2 hle)
              · simp only [loadModelVersionFromStorage, hp, if_neg hv]
                refine ⟨by norm_num [defaultModelVersion], ?_, ?_, ?_, ?_, ?_⟩
                · intro str' v' hs hpv hpos
                  cases hs
                  rw [hp] at hpv
                  cases Option.some.inj hpv
                  exact absurd hpos hv
                · intro h; cases h
                · intro h; cases h
                · intro str' hs hpn
                  cases hs
                  rw [hp] at hpn
                  cases hpn
                · intro _ _ _ _ _; rfl

/-- Witness for C9: a stored `"5"` is adopted (and is positive); implicitly
exercises the parse path. -/
theorem loadModelVersion_validated_witness :
    loadModelVersionFromStorage (.ok (some "5")) defaultModelVersion = 5 ∧
      0 < loadModelVersionFromStorage (.ok (some "5")) defaultModelVersion :=
  ⟨(loadModelVersion_validated (.ok (some "5"))).2.1 "5" 5 rfl (by decide) (by decide),
   (loadModelVersion_validated (.ok (some "5"))).1⟩

/-- C10: `toggleGlobalAudio` is a global mute toggle with "any-unmuted
wins" semantics: with no bound videos it returns `false` and changes nothing;
otherwise, if at least one bound video is unmuted every video becomes muted
and it returns `true`, if all are muted every video becomes unmuted and it
returns `false`, and the returned boolean always equals the new common muted
state of every bound video. -/
theorem toggleGlobalAudio_spec (s : ArenaState) :
    ((s.videoElements.map Prod.snd).flatten = [] → toggleGlobalAudio s = (s, false)) ∧
    ((s.videoElements.map Prod.snd).flatten ≠ [] →
      ((∃ v ∈ (s.videoElements.map Prod.snd).flatten, v.muted = false) →
          (toggleGlobalAudio s).2 = true) ∧
      ((∀ v ∈ (s.videoElements.map Prod.snd).flatten, v.muted = true) →
          (toggleGlobalAudio s).2 = false) ∧
      (∀ v ∈ ((toggleGlobalAudio s).1.videoElements.map Prod.snd).flatten,
          v.muted = (toggleGlobalAudio s).2)) := by
  constructor
  · intro h
    rw [toggleGlobalAudio]
    simp [h]
  · intro h
    have hlen : ¬ ((s.videoElements.map Prod.snd).flatten.length = 0) :=
      fun hl => h (List.length_eq_zero.1 hl)
    refine ⟨?_, ?_, ?_⟩
    · intro ⟨v, hv, hmut⟩
      rw [toggleGlobalAudio]
      simp only [if_neg hlen]
      simp only [List.any_eq_true]
      exact ⟨v, hv, by simp [hmut]⟩
    · intro hall
      rw [toggleGlobalAudio]
      simp only [if_neg hlen]
      simp only [List.any_eq_false]
      intro v hv
      simp [hall v hv]
    · intro v hv
      rw [toggleGlobalAudio] at hv ⊢
      simp only [if_neg hlen] at hv ⊢
      simp only [mapAllVideos, List.map_map, List.mem_flatten, List.mem_map] at hv
      obtain ⟨lst, ⟨p, hp, hlst⟩, hvlst⟩ := hv
      subst hlst
      simp only [Function.comp] at hvlst
      obtain ⟨w, _, hw⟩ := List.mem_map.1 hvlst
      subst hw
      rfl

/-! ### Mode-switch lemmas and C2 -/

theorem load3DModel_of_loaded (s : ArenaState) (gltf : List GltfMesh)
    (h : s.model3DLoaded = true) : load3DModel s gltf = s := by
  rw [load3DModel, if_pos h]

theorem show2DMode_core (s : ArenaState) :
    (show2DMode s).videoElements = s.videoElements ∧
    (show2DMode s).videoTextures = s.videoTextures ∧
    (∀ i, ((show2DMode s).meshStore i).material = (s.meshStore i).material) ∧
    (show2DMode s).model3DLoaded = s.model3DLoaded := by
  rw [show2DMode]
  dsimp only
  split <;> simp

theorem show3DMode_core (s : ArenaState) :
    (show3DMode s).videoElements = s.videoElements ∧
    (show3DMode s).videoTextures = s.videoTextures ∧
    (∀ i, ((show3DMode s).meshStore i).material = (s.meshStore i).material) ∧
    (show3DMode s).model3DLoaded = s.model3DLoaded := by
  rw [show3DMode]
  dsimp only
  split <;> simp

theorem setMode_core (s : ArenaState) (m : Mode) (gltf : List GltfMesh)
    (h : s.model3DLoaded = true) :
    (setMode s m gltf).videoElements = s.videoElements ∧
    (setMode s m gltf).videoTextures = s.videoTextures ∧
    (∀ i, ((setMode s m gltf).meshStore i).material = (s.meshStore i).material) ∧
    (setMode s m gltf).model3DLoaded = true := by
  rw [setMode]
  split
  · exact ⟨rfl, rfl, fun i => rfl, h⟩
  · cases m with
    | two =>
        dsimp only
        have hc := show2DMode_core { s with mode := Mode.two }
        exact ⟨hc.1, hc.2.1, hc.2.2.1, by rw [hc.2.2.2]; exact h⟩
    | three =>
        dsimp only
        rw [load3DModel_of_loaded { s with mode := Mode.three } gltf h]
        have hc := show3DMode_core { s with mode := Mode.three }
        exact ⟨hc.1, hc.2.1, hc.2.2.1, by rw [hc.2.2.2]; exact h⟩

theorem setMode_foldl_core (gltf : List GltfMesh) (modes : List Mode) (s : ArenaState)
    (h : s.model3DLoaded = true) :
    ((modes.foldl (fun st m => setMode st m gltf) s).videoElements = s.videoElements) ∧
    ((modes.foldl (fun st m => setMode st m gltf) s).videoTextures = s.videoTextures) ∧
    (∀ i, ((modes.foldl (fun st m => setMode st m gltf) s).meshStore i).material =
      (s.meshStore i).material) ∧
    (modes.foldl (fun st m => setMode st m gltf) s).model3DLoaded = true := by
  induction modes generalizing s with
  | nil => exact ⟨rfl, rfl, fun i => rfl, h⟩
  | cons m ms ih =>
      rw [List.foldl_cons]
      have h1 := setMode_core s m gltf h
      have h2 := ih (setMode s m gltf) h1.2.2.2
      exact ⟨h2.1.trans h1.1, h2.2.1.trans h1.2.1,
        fun i => (h2.2.2.1 i).trans (h1.2.2.1 i), h2.2.2.2⟩

/-- C2: Mode switching never clears media: with the 3-D model resident,
any sequence of `setMode` calls leaves `videoElements` and `videoTextures`
untouched (so `isVideoLoadedOnPlane` is unchanged for every plane) and leaves
every mesh's material — in particular any applied video material — exactly as
it was (only visibility is toggled); and `setMode` targeting the current mode
is a no-op. -/
theorem setMode_preserves_media (s : ArenaState) (gltf : List GltfMesh) (modes : List Mode)
    (h : s.model3DLoaded = true) :
    ((modes.foldl (fun st m => setMode st m gltf) s).videoElements = s.videoElements) ∧
    ((modes.foldl (fun st m => setMode st m gltf) s).videoTextures = s.videoTextures) ∧
    (∀ n, isVideoLoadedOnPlane (modes.foldl (fun st m => setMode st m gltf) s) n =
      isVideoLoadedOnPlane s n) ∧
    (∀ i, ((modes.foldl (fun st m => setMode st m gltf) s).meshStore i).material =
      (s.meshStore i).material) ∧
    setMode s s.mode gltf = s := by
  have hc := setMode_foldl_core gltf modes s h
  refine ⟨hc.1, hc.2.1, ?_, hc.2.2.1, ?_⟩
  · intro n
    rw [isVideoLoadedOnPlane, isVideoLoadedOnPlane, hc.1]
  · rw [setMode, if_pos rfl]

/-- Witness for C2: the demo state with a video bound on `ICE` while in 3-D
mode, switched `3d → 2d → 3d` (the first call is the no-op case). -/
theorem setMode_preserves_media_witness :
    boundICE.model3DLoaded = true ∧
    (([Mode.three, Mode.two, Mode.three].foldl
        (fun st m => setMode st m demoGltf) boundICE).videoElements =
      boundICE.videoElements) :=
  ⟨rfl, (setMode_preserves_media boundICE demoGltf [Mode.three, Mode.two, Mode.three] rfl).1⟩

/-- Witness for C10 at a concrete two-plane state: one unmuted video exists,
so the toggle mutes everything and returns `true`. -/
theorem toggleGlobalAudio_spec_witness :
    let v₁ : VideoElem :=
      { src := "a.mp4", muted := false, paused := true, ended := false, loop := true,
        currentTime := 0, duration := 0, objectUrl := none }
    let v₂ : VideoElem :=
      { src := "b.mp4", muted := true, paused := true, ended := false, loop := true,
        currentTime := 0, duration := 0, objectUrl := none }
    let s := { initState with videoElements := [("ICE", [v₁]), ("K2", [v₂])] }
    (toggleGlobalAudio s).2 = true :=
  ((toggleGlobalAudio_spec _).2 (by decide)).1
    ⟨{ src := "a.mp4", muted := false, paused := true, ended := false, loop := true,
       currentTime := 0, duration := 0, objectUrl := none }, by decide, rfl⟩

/-! ### Composite-plane binding lemmas and C3 -/

theorem mapGet_mapAllVideos (s : ArenaState) (f : VideoElem → VideoElem) (k : String) :
    mapGet (mapAllVideos s f).videoElements k = (mapGet s.videoElements k).map (List.map f) := by
  rw [mapAllVideos]
  exact mapGet_map_snd _ _ _

theorem bindPhase2_composite (s : ArenaState) (name : String) (video : VideoElem)
    (meta : VideoMeta) (pid : MeshId) (cfg : PlaneConfig)
    (h2d : plane2DEntry name = some (pid, cfg))
    (hn : name = "A7" ∨ name = "BIG-MAP") (hparts : compositePartsFor s name ≠ []) :
    bindPhase2 s name video meta =
      (let t := s.nextTextureId
       let s2 : ArenaState :=
         { s with nextTextureId := t + 1,
                  textureStore := fun i =>
                    if i = t then some (applyUVMapping name (meta.width / meta.height))
                    else s.textureStore i }
       let vmat := Material.videoPhong t Side.front
       let s3 := setAllMaterials (setMeshMaterial s2 pid vmat) (compositePartsFor s name) vmat
       ({ s3 with
            videoElements := mapSet s3.videoElements name [{ video with duration := meta.duration }],
            videoTextures := mapSet s3.videoTextures name [t] }, true)) := by
  rcases hn with hn | hn <;> subst hn
  · have hp : s.a7Parts ≠ [] := by simpa [compositePartsFor] using hparts
    rw [bindPhase2]
    dsimp only
    rw [h2d]
    dsimp only
    dsimp only [setMeshMaterial_a7Parts, setMeshMaterial_bigMapPlanes]
    rw [if_pos (show ("A7" : String) = "A7" ∧ s.a7Parts ≠ [] from ⟨rfl, hp⟩)]
    dsimp only
    have hc : compositePartsFor s "A7" = s.a7Parts := by simp [compositePartsFor]
    rw [hc]
    rfl
  · have hp : s.bigMapPlanes ≠ [] := by simpa [compositePartsFor] using hparts
    rw [bindPhase2]
    dsimp only
    rw [h2d]
    dsimp only
    dsimp only [setMeshMaterial_a7Parts, setMeshMaterial_bigMapPlanes]
    rw [if_neg (show ¬(("BIG-MAP" : String) = "A7" ∧ s.a7Parts ≠ []) from by simp),
        if_pos (show ("BIG-MAP" : String) = "BIG-MAP" ∧ s.bigMapPlanes ≠ [] from ⟨rfl, hp⟩)]
    dsimp only
    have hc : compositePartsFor s "BIG-MAP" = s.bigMapPlanes := by simp [compositePartsFor]
    rw [hc]
    rfl

/-- C3: A successful `bindMedia` on a composite plane (`A7` or `BIG-MAP`
with its parts discovered) creates exactly one decoded media instance — a
single video element and a single derived texture `t` — shared by every part
of the plane and by its 2-D proxy (every surface's material references the
same `t`), and every batch transport operation acts on that shared handle
exactly once, not once per surface: the plane's tracked handle list is the
singleton `[v]` and each batch operation maps it to a singleton acted on
once. -/
theorem composite_bind_single_shared_handle (s : ArenaState) (name : String)
    (src : VideoSource) (meta : VideoMeta) (percentage : ℚ)
    (hname : name = "A7" ∨ name = "BIG-MAP")
    (hparts : compositePartsFor s name ≠ [])
    (hdisj : ∀ i ∈ planes2DIds, i ∉ compositePartsFor s name) :
    (loadVideoOnPlane s name src (.success meta)).2 = true ∧
    ∃ v t,
      mapGet (loadVideoOnPlane s name src (.success meta)).1.videoElements name = some [v] ∧
      mapGet (loadVideoOnPlane s name src (.success meta)).1.videoTextures name = some [t] ∧
      (∀ id ∈ compositePartsFor s name,
        ((loadVideoOnPlane s name src (.success meta)).1.meshStore id).material =
          Material.videoPhong t Side.front) ∧
      (∃ pid cfg, plane2DEntry name = some (pid, cfg) ∧
        ((loadVideoOnPlane s name src (.success meta)).1.meshStore pid).material =
          Material.videoPhong t Side.front) ∧
      mapGet (playAllVideos (loadVideoOnPlane s name src (.success meta)).1).videoElements name =
        some [playVideo v] ∧
      mapGet (pauseAllVideos (loadVideoOnPlane s name src (.success meta)).1).videoElements name =
        some [{ v with paused := true }] ∧
      mapGet (stopAndRewindAllVideos
          (loadVideoOnPlane s name src (.success meta)).1).videoElements name =
        some [{ v with paused := true, currentTime := 0 }] ∧
      mapGet (seekAllVideos
          (loadVideoOnPlane s name src (.success meta)).1 percentage).videoElements name =
        some [seekVideo percentage v] := by
  obtain ⟨pid, cfg, h2d, hpidmem⟩ :
      ∃ pid cfg, plane2DEntry name = some (pid, cfg) ∧ pid ∈ planes2DIds := by
    rcases hname with h | h <;> subst h
    · exact ⟨0, _, rfl, by decide⟩
    · exact ⟨1, _, rfl, by decide⟩
  have hpid : pid ∉ compositePartsFor s name := hdisj pid hpidmem
  have hframe := clearVideoFromPlane_frame s name
  have hpc : compositePartsFor (clearVideoFromPlane s name) name = compositePartsFor s name := by
    rcases hname with h | h <;> subst h <;>
      simp [compositePartsFor, hframe.1, hframe.2.1]
  have hparts1 : compositePartsFor (clearVideoFromPlane s name) name ≠ [] := by
    rw [hpc]; exact hparts
  have hload : loadVideoOnPlane s name src (.success meta) =
      bindPhase2 (clearVideoFromPlane s name) name (mkVideoElem src) meta := rfl
  rw [hload, bindPhase2_composite (clearVideoFromPlane s name) name (mkVideoElem src) meta
    pid cfg h2d hname hparts1]
  dsimp only
  rw [hpc]
  refine ⟨rfl, { mkVideoElem src with duration := meta.duration },
    (clearVideoFromPlane s name).nextTextureId, ?_, ?_, ?_, ?_, ?_, ?_, ?_, ?_⟩
  · exact mapGet_mapSet_self _ _ _
  · exact mapGet_mapSet_self _ _ _
  · intro id hid
    exact setAllMaterials_material_mem _ _ _ _ hid
  · refine ⟨pid, cfg, h2d, ?_⟩
    rw [setAllMaterials_material_notMem _ _ _ _ hpid]
    exact setMeshMaterial_material_self _ _ _
  · rw [playAllVideos, mapGet_mapAllVideos]
    rw [show mapGet (mapSet (setAllMaterials (setMeshMaterial _ pid _) _ _).videoElements name
      [{ mkVideoElem src with duration := meta.duration }]) name = _ from mapGet_mapSet_self _ _ _]
    rfl
  · rw [pauseAllVideos, mapGet_mapAllVideos]
    rw [show mapGet (mapSet (setAllMaterials (setMeshMaterial _ pid _) _ _).videoElements name
      [{ mkVideoElem src with duration := meta.duration }]) name = _ from mapGet_mapSet_self _ _ _]
    rfl
  · rw [stopAndRewindAllVideos, mapGet_mapAllVideos]
    rw [show mapGet (mapSet (setAllMaterials (setMeshMaterial _ pid _) _ _).videoElements name
      [{ mkVideoElem src with duration := meta.duration }]) name = _ from mapGet_mapSet_self _ _ _]
    rfl
  · rw [seekAllVideos, mapGet_mapAllVideos]
    rw [show mapGet (mapSet (setAllMaterials (setMeshMaterial _ pid _) _ _).videoElements name
      [{ mkVideoElem src with duration := meta.duration }]) name = _ from mapGet_mapSet_self _ _ _]
    rfl

/-! ### Clear-after-bind lemmas and C4 -/

theorem clearSurfaces2D_eq (s : ArenaState) (n : String) (pid : MeshId) (cfg : PlaneConfig)
    (h2d : plane2DEntry n = some (pid, cfg)) :
    clearSurfaces2D s n = setMeshMaterial s pid (fallback2D cfg.color) := by
  rw [clearSurfaces2D, h2d]

theorem surfaces3DFor_congr (s s' : ArenaState) (n : String)
    (h7 : s'.a7Parts = s.a7Parts) (hB : s'.bigMapPlanes = s.bigMapPlanes)
    (hM : s'.model3DPlanes = s.model3DPlanes) :
    surfaces3DFor s' n = surfaces3DFor s n := by
  rw [surfaces3DFor, surfaces3DFor, h7, hB, hM]

theorem fallback3DFor_congr (s s' : ArenaState) (n : String)
    (h7 : s'.a7Parts = s.a7Parts) (hB : s'.bigMapPlanes = s.bigMapPlanes) :
    fallback3DFor s' n = fallback3DFor s n := by
  rw [fallback3DFor, fallback3DFor, h7, hB]

theorem clearSurfaces3D_materials (s : ArenaState) (n : String) :
    (∀ id ∈ surfaces3DFor s n,
        ((clearSurfaces3D s n).meshStore id).material = fallback3DFor s n) ∧
    (∀ i, i ∉ surfaces3DFor s n →
        ((clearSurfaces3D s n).meshStore i).material = (s.meshStore i).material) := by
  by_cases hA : n = "A7" ∧ s.a7Parts ≠ []
  · rw [clearSurfaces3D, if_pos hA, surfaces3DFor, if_pos hA, fallback3DFor, if_pos hA]
    exact ⟨fun id hid => setAllMaterials_material_mem _ _ _ _ hid,
           fun i hi => setAllMaterials_material_notMem _ _ _ _ hi⟩
  · by_cases hB : n = "BIG-MAP" ∧ s.bigMapPlanes ≠ []
    · rw [clearSurfaces3D, if_neg hA, if_pos hB, surfaces3DFor, if_neg hA, if_pos hB,
        fallback3DFor, if_neg hA, if_pos hB]
      exact ⟨fun id hid => setAllMaterials_material_mem _ _ _ _ hid,
             fun i hi => setAllMaterials_material_notMem _ _ _ _ hi⟩
    · rw [clearSurfaces3D, if_neg hA, if_neg hB, surfaces3DFor, if_neg hA, if_neg hB,
        fallback3DFor, if_neg hA, if_neg hB]
      cases hM : s.model3DPlanes n with
      | some id0 =>
          dsimp only
          constructor
          · intro id hid
            rw [List.mem_singleton] at hid
            subst hid
            exact setMeshMaterial_material_self _ _ _
          · intro i hi
            rw [List.mem_singleton] at hi
            exact setMeshMaterial_material_ne _ _ _ _ hi
      | none =>
          exact ⟨fun id hid => absurd hid (List.not_mem_nil id), fun i _ => rfl⟩

theorem clearMediaMaps_of_empty (s : ArenaState) (n : String)
    (hve : s.videoElements = []) (hvt : s.videoTextures = []) :
    clearMediaMaps s n = s := by
  rw [clearMediaMaps]
  dsimp only
  rw [hve]
  dsimp only [mapGet]
  rw [hvt]
  dsimp only [mapGet]

theorem clearVideoFromPlane_of_empty (s : ArenaState) (n : String)
    (hve : s.videoElements = []) (hvt : s.videoTextures = []) :
    clearVideoFromPlane s n = clearSurfaces3D (clearSurfaces2D s n) n := by
  have h1 := clearSurfaces2D_frame s n
  have h2 := clearSurfaces3D_frame (clearSurfaces2D s n) n
  rw [clearVideoFromPlane]
  exact clearMediaMaps_of_empty _ _ (by rw [h2.2.2.2.2.1, h1.2.2.2.2.1, hve])
    (by rw [h2.2.2.2.2.2.1, h1.2.2.2.2.2.1, hvt])

theorem clearMediaMaps_singleton (s : ArenaState) (n : String) (v : VideoElem) (t : Nat)
    (hve : s.videoElements = [(n, [v])]) (hvt : s.videoTextures = [(n, [t])]) :
    (clearMediaMaps s n).videoElements = [] ∧
    (clearMediaMaps s n).videoTextures = [] ∧
    (clearMediaMaps s n).releasedVideos =
      s.releasedVideos ++ [{ v with paused := true, src := "", objectUrl := none }] ∧
    (clearMediaMaps s n).disposedTextures = s.disposedTextures ++ [t] ∧
    (∀ u, v.objectUrl = some u → (clearMediaMaps s n).revokedUrls = s.revokedUrls ++ [u]) ∧
    (v.objectUrl = none → (clearMediaMaps s n).revokedUrls = s.revokedUrls) := by
  refine ⟨?_, ?_, ?_, ?_, ?_, ?_⟩
  · simp [clearMediaMaps, hve, hvt, mapGet, mapDelete]
  · simp [clearMediaMaps, hve, hvt, mapGet, mapDelete]
  · simp [clearMediaMaps, hve, hvt, mapGet, mapDelete, releaseVideo_releasedVideos]
  · simp [clearMediaMaps, hve, hvt, mapGet, mapDelete]
  · intro u hu
    simp [clearMediaMaps, hve, hvt, mapGet, mapDelete,
      releaseVideo_revokedUrls_some _ _ _ hu]
  · intro hu
    simp [clearMediaMaps, hve, hvt, mapGet, mapDelete,
      releaseVideo_revokedUrls_none _ _ hu]

theorem bindPhase2_frame (s : ArenaState) (n : String) (video : VideoElem) (meta : VideoMeta) :
    (bindPhase2 s n video meta).1.a7Parts = s.a7Parts ∧
    (bindPhase2 s n video meta).1.bigMapPlanes = s.bigMapPlanes ∧
    (bindPhase2 s n video meta).1.model3DPlanes = s.model3DPlanes ∧
    (bindPhase2 s n video meta).1.revokedUrls = s.revokedUrls ∧
    (bindPhase2 s n video meta).1.disposedTextures = s.disposedTextures ∧
    (bindPhase2 s n video meta).1.releasedVideos = s.releasedVideos ∧
    (∀ i, ((bindPhase2 s n video meta).1.meshStore i).visible = (s.meshStore i).visible) := by
  rw [bindPhase2]
  dsimp only
  repeat' split
  all_goals simp

theorem bindPhase2_success_media (s : ArenaState) (n : String) (video : VideoElem)
    (meta : VideoMeta) (pid : MeshId) (cfg : PlaneConfig)
    (h2d : plane2DEntry n = some (pid, cfg)) :
    (bindPhase2 s n video meta).2 = true ∧
    (bindPhase2 s n video meta).1.videoElements =
      mapSet s.videoElements n [{ video with duration := meta.duration }] ∧
    (bindPhase2 s n video meta).1.videoTextures =
      mapSet s.videoTextures n [s.nextTextureId] := by
  rw [bindPhase2]
  dsimp only
  rw [h2d]
  dsimp only
  repeat' split
  all_goals simp_all

/-- C4: Binding media to a catalogued plane and then clearing it resets
every surface registered for that name — the 2-D proxy gets back its fallback
tint and every 3-D surface (including every part of a composite plane) gets
back its plane-specific tint —, releases the media handle (video paused with
source detached, object URL revoked exactly when the source was file-backed,
texture disposed, both map entries removed, so the playback summary reports
zero bound media), and never removes any surface: the part lists, the 3-D
registry and every mesh (with its visibility) survive with only materials
changed. -/
theorem bind_then_clear_resets (s : ArenaState) (name : String) (src : VideoSource)
    (meta : VideoMeta) (pid : MeshId) (cfg : PlaneConfig)
    (h2d : plane2DEntry name = some (pid, cfg))
    (hve : s.videoElements = []) (hvt : s.videoTextures = [])
    (hd7 : pid ∉ s.a7Parts) (hdB : pid ∉ s.bigMapPlanes)
    (hdM : s.model3DPlanes name ≠ some pid) :
    (loadVideoOnPlane s name src (.success meta)).2 = true ∧
    ((clearVideoFromPlane (loadVideoOnPlane s name src (.success meta)).1 name).meshStore
        pid).material = fallback2D cfg.color ∧
    (∀ id ∈ surfaces3DFor s name,
      ((clearVideoFromPlane (loadVideoOnPlane s name src (.success meta)).1 name).meshStore
          id).material = fallback3DFor s name) ∧
    (clearVideoFromPlane (loadVideoOnPlane s name src (.success meta)).1 name).videoElements
      = [] ∧
    (clearVideoFromPlane (loadVideoOnPlane s name src (.success meta)).1 name).videoTextures
      = [] ∧
    isVideoLoadedOnPlane
      (clearVideoFromPlane (loadVideoOnPlane s name src (.success meta)).1 name) name = false ∧
    (getVideoPlaybackInfo
      (clearVideoFromPlane (loadVideoOnPlane s name src (.success meta)).1 name)).videoCount
      = 0 ∧
    (clearVideoFromPlane (loadVideoOnPlane s name src (.success meta)).1 name).releasedVideos
      = s.releasedVideos ++
        [{ mkVideoElem src with
             duration := meta.duration, paused := true, src := "", objectUrl := none }] ∧
    (clearVideoFromPlane (loadVideoOnPlane s name src (.success meta)).1 name).disposedTextures
      = s.disposedTextures ++ [s.nextTextureId] ∧
    (∀ f, src = .file f →
      (clearVideoFromPlane (loadVideoOnPlane s name src (.success meta)).1 name).revokedUrls
        = s.revokedUrls ++ ["blob:" ++ f]) ∧
    (∀ a, src = .url a →
      (clearVideoFromPlane (loadVideoOnPlane s name src (.success meta)).1 name).revokedUrls
        = s.revokedUrls) ∧
    (clearVideoFromPlane (loadVideoOnPlane s name src (.success meta)).1 name).a7Parts
      = s.a7Parts ∧
    (clearVideoFromPlane (loadVideoOnPlane s name src (.success meta)).1 name).bigMapPlanes
      = s.bigMapPlanes ∧
    (clearVideoFromPlane (loadVideoOnPlane s name src (.success meta)).1 name).model3DPlanes
      = s.model3DPlanes ∧
    (∀ i,
      ((clearVideoFromPlane (loadVideoOnPlane s name src (.success meta)).1 name).meshStore
          i).visible = (s.meshStore i).visible) := by
  have hf1 := clearVideoFromPlane_frame s name
  have hclr1 : clearVideoFromPlane s name = clearSurfaces3D (clearSurfaces2D s name) name :=
    clearVideoFromPlane_of_empty s name hve hvt
  have hve1 : (clearVideoFromPlane s name).videoElements = [] := by
    rw [hclr1, (clearSurfaces3D_frame _ _).2.2.2.2.1, (clearSurfaces2D_frame _ _).2.2.2.2.1, hve]
  have hvt1 : (clearVideoFromPlane s name).videoTextures = [] := by
    rw [hclr1, (clearSurfaces3D_frame _ _).2.2.2.2.2.1,
      (clearSurfaces2D_frame _ _).2.2.2.2.2.1, hvt]
  have hrev1 : (clearVideoFromPlane s name).revokedUrls = s.revokedUrls := by
    rw [hclr1, (clearSurfaces3D_frame _ _).2.2.2.2.2.2.1,
      (clearSurfaces2D_frame _ _).2.2.2.2.2.2.1]
  have hdis1 : (clearVideoFromPlane s name).disposedTextures = s.disposedTextures := by
    rw [hclr1, (clearSurfaces3D_frame _ _).2.2.2.2.2.2.2.1,
      (clearSurfaces2D_frame _ _).2.2.2.2.2.2.2.1]
  have hrel1 : (clearVideoFromPlane s name).releasedVideos = s.releasedVideos := by
    rw [hclr1, (clearSurfaces3D_frame _ _).2.2.2.2.2.2.2.2.1,
      (clearSurfaces2D_frame _ _).2.2.2.2.2.2.2.2.1]
  have hsucc := bindPhase2_success_media (clearVideoFromPlane s name) name (mkVideoElem src)
    meta pid cfg h2d
  have hbf := bindPhase2_frame (clearVideoFromPlane s name) name (mkVideoElem src) meta
  have hload : loadVideoOnPlane s name src (.success meta) =
      bindPhase2 (clearVideoFromPlane s name) name (mkVideoElem src) meta := rfl
  rw [hload]
  -- facts about the bound state
  have hveB : (bindPhase2 (clearVideoFromPlane s name) name (mkVideoElem src) meta).1.videoElements
      = [(name, [{ mkVideoElem src with duration := meta.duration }])] := by
    rw [hsucc.2.1, hve1]; rfl
  have hvtB : (bindPhase2 (clearVideoFromPlane s name) name (mkVideoElem src) meta).1.videoTextures
      = [(name, [s.nextTextureId])] := by
    rw [hsucc.2.2, hvt1, hf1.2.2.2.1]; rfl
  have hB7 : (bindPhase2 (clearVideoFromPlane s name) name (mkVideoElem src) meta).1.a7Parts
      = s.a7Parts := by rw [hbf.1, hf1.1]
  have hBB : (bindPhase2 (clearVideoFromPlane s name) name (mkVideoElem src) meta).1.bigMapPlanes
      = s.bigMapPlanes := by rw [hbf.2.1, hf1.2.1]
  have hBM : (bindPhase2 (clearVideoFromPlane s name) name (mkVideoElem src) meta).1.model3DPlanes
      = s.model3DPlanes := by rw [hbf.2.2.1, hf1.2.2.1]
  have hBrev : (bindPhase2 (clearVideoFromPlane s name) name (mkVideoElem src) meta).1.revokedUrls
      = s.revokedUrls := by rw [hbf.2.2.2.1, hrev1]
  have hBdis : (bindPhase2 (clearVideoFromPlane s name) name
      (mkVideoElem src) meta).1.disposedTextures = s.disposedTextures := by
    rw [hbf.2.2.2.2.1, hdis1]
  have hBrel : (bindPhase2 (clearVideoFromPlane s name) name
      (mkVideoElem src) meta).1.releasedVideos = s.releasedVideos := by
    rw [hbf.2.2.2.2.2.1, hrel1]
  have hBvis : ∀ i, ((bindPhase2 (clearVideoFromPlane s name) name
      (mkVideoElem src) meta).1.meshStore i).visible = (s.meshStore i).visible := fun i => by
    rw [hbf.2.2.2.2.2.2 i]; exact hf1.2.2.2.2 i
  generalize hgen : (bindPhase2 (clearVideoFromPlane s name) name (mkVideoElem src) meta) = B
    at hsucc hveB hvtB hB7 hBB hBM hBrev hBdis hBrel hBvis ⊢
  -- the second clear, stage by stage
  have hc2 : clearSurfaces2D B.1 name = setMeshMaterial B.1 pid (fallback2D cfg.color) :=
    clearSurfaces2D_eq _ _ _ _ h2d
  have hc2sur : surfaces3DFor (clearSurfaces2D B.1 name) name = surfaces3DFor s name := by
    refine surfaces3DFor_congr _ _ _ ?_ ?_ ?_ <;> rw [hc2] <;> simp [hB7, hBB, hBM]
  have hc2fb : fallback3DFor (clearSurfaces2D B.1 name) name = fallback3DFor s name := by
    refine fallback3DFor_congr _ _ _ ?_ ?_ <;> rw [hc2] <;> simp [hB7, hBB]
  have hpid3 : pid ∉ surfaces3DFor s name := by
    rw [surfaces3DFor]
    split
    · exact hd7
    · split
      · exact hdB
      · cases hM : s.model3DPlanes name with
        | some id0 =>
            intro hmem
            rw [List.mem_singleton] at hmem
            exact hdM (hmem ▸ hM)
        | none => exact List.not_mem_nil pid
  have h3m := clearSurfaces3D_materials (clearSurfaces2D B.1 name) name
  have h3f := clearSurfaces3D_frame (clearSurfaces2D B.1 name) name
  have hcm := clearMediaMaps_frame
    (clearSurfaces3D (clearSurfaces2D B.1 name) name) name
  have hveC : (clearSurfaces3D (clearSurfaces2D B.1 name) name).videoElements
      = [(name, [{ mkVideoElem src with duration := meta.duration }])] := by
    rw [h3f.2.2.2.2.1, (clearSurfaces2D_frame _ _).2.2.2.2.1, hveB]
  have hvtC : (clearSurfaces3D (clearSurfaces2D B.1 name) name).videoTextures
      = [(name, [s.nextTextureId])] := by
    rw [h3f.2.2.2.2.2.1, (clearSurfaces2D_frame _ _).2.2.2.2.2.1, hvtB]
  have hsing := clearMediaMaps_singleton
    (clearSurfaces3D (clearSurfaces2D B.1 name) name) name
    { mkVideoElem src with duration := meta.duration } s.nextTextureId hveC hvtC
  have hfinal : clearVideoFromPlane B.1 name =
      clearMediaMaps (clearSurfaces3D (clearSurfaces2D B.1 name) name) name := rfl
  rw [hfinal]
  refine ⟨hsucc.1, ?_, ?_, hsing.1, hsing.2.1, ?_, ?_, ?_, ?_, ?_, ?_, ?_, ?_, ?_, ?_⟩
  · -- 2-D proxy reset
    rw [show (clearMediaMaps (clearSurfaces3D (clearSurfaces2D B.1 name) name) name).meshStore
        = (clearSurfaces3D (clearSurfaces2D B.1 name) name).meshStore from hcm.2.2.2.2]
    rw [h3m.2 pid (hc2sur ▸ hpid3), hc2]
    exact setMeshMaterial_material_self _ _ _
  · -- 3-D surfaces reset
    intro id hid
    rw [show (clearMediaMaps (clearSurfaces3D (clearSurfaces2D B.1 name) name) name).meshStore
        = (clearSurfaces3D (clearSurfaces2D B.1 name) name).meshStore from hcm.2.2.2.2]
    rw [h3m.1 id (hc2sur ▸ hid), hc2fb]
  · -- isVideoLoadedOnPlane false
    rw [isVideoLoadedOnPlane, hsing.1]
    rfl
  · -- playback summary reports zero
    rw [getVideoPlaybackInfo, hsing.1]
    rfl
  · -- released video log
    rw [hsing.2.2.1, h3f.2.2.2.2.2.2.2.2.1, (clearSurfaces2D_frame _ _).2.2.2.2.2.2.2.2.1,
      hBrel]
  · -- disposed texture log
    rw [hsing.2.2.2.1, h3f.2.2.2.2.2.2.2.1, (clearSurfaces2D_frame _ _).2.2.2.2.2.2.2.1, hBdis]
  · -- revoked URL for a file-backed source
    intro f hf
    subst hf
    rw [hsing.2.2.2.2.1 ("blob:" ++ f) rfl, h3f.2.2.2.2.2.2.1,
      (clearSurfaces2D_frame _ _).2.2.2.2.2.2.1, hBrev]
  · -- no revocation for a URL source
    intro a ha
    subst ha
    rw [hsing.2.2.2.2.2 rfl, h3f.2.2.2.2.2.2.1,
      (clearSurfaces2D_frame _ _).2.2.2.2.2.2.1, hBrev]
  · rw [hcm.1, h3f.1, (clearSurfaces2D_frame _ _).1, hB7]
  · rw [hcm.2.1, h3f.2.1, (clearSurfaces2D_frame _ _).2.1, hBB]
  · rw [hcm.2.2.1, h3f.2.2.1, (clearSurfaces2D_frame _ _).2.2.1, hBM]
  · intro i
    rw [show (clearMediaMaps (clearSurfaces3D (clearSurfaces2D B.1 name) name) name).meshStore
        = (clearSurfaces3D (clearSurfaces2D B.1 name) name).meshStore from hcm.2.2.2.2]
    rw [h3f.2.2.2.2.2.2.2.2.2 i, (clearSurfaces2D_frame _ _).2.2.2.2.2.2.2.2.2 i, hBvis i]

/-- Witness for C3: binding a file-backed video to the composite plane `A7`
in the demo state (three discovered parts) succeeds. -/
theorem composite_bind_single_shared_handle_witness :
    compositePartsFor loadedState "A7" ≠ [] ∧
    (loadVideoOnPlane loadedState "A7" (.file "clip.mp4") (.success ⟨16, 9, 42⟩)).2 = true :=
  ⟨by decide,
   (composite_bind_single_shared_handle loadedState "A7" (.file "clip.mp4") ⟨16, 9, 42⟩ 50
     (Or.inl rfl) (by decide) (by decide)).1⟩

/-- Witness for C4: bind a file-backed video on `ICE` in the demo state, then
clear it; the bind succeeds and the clear leaves zero bound media. -/
theorem bind_then_clear_resets_witness :
    (loadVideoOnPlane loadedState "ICE" (.file "ice.mp4") (.success ⟨4, 3, 10⟩)).2 = true ∧
    (clearVideoFromPlane
        (loadVideoOnPlane loadedState "ICE" (.file "ice.mp4") (.success ⟨4, 3, 10⟩)).1
        "ICE").videoElements = [] :=
  ⟨(bind_then_clear_resets loadedState "ICE" (.file "ice.mp4") ⟨4, 3, 10⟩ 2
      ⟨"ICE", 4000, 2000, 0x45b7d1⟩ rfl rfl rfl (by decide) (by decide) (by decide)).1,
   (bind_then_clear_resets loadedState "ICE" (.file "ice.mp4") ⟨4, 3, 10⟩ 2
      ⟨"ICE", 4000, 2000, 0x45b7d1⟩ rfl rfl rfl (by decide) (by decide)
      (by decide)).2.2.2.1⟩

/-- C1 (code bug, the race the claim forbids): `loadVideoOnPlane` tracks
no per-plane generation token, so with two overlapping binds on `ICE` —
`slow.mp4` issued first, `fast.mp4` issued second — where the newer call's
load resolves first and the older call's load resolves later, the stale
resolution is applied last: both loads report success, but the plane ends up
tracking `slow.mp4` and showing the older call's texture (id 1, the one
created for `slow.mp4`) on both its 2-D proxy (mesh 2) and its 3-D mesh
(mesh 120) — not `fast.mp4` as last-call-wins requires. -/
theorem bindMedia_race_stale_resolution_wins :
    staleBindRace.okFast = true ∧ staleBindRace.okSlow = true ∧
    (mapGet staleBindRace.afterFast.videoElements "ICE").map (fun vs => vs.map VideoElem.src)
      = some ["fast.mp4"] ∧
    (mapGet staleBindRace.final.videoElements "ICE").map (fun vs => vs.map VideoElem.src)
      = some ["slow.mp4"] ∧
    mapGet staleBindRace.final.videoTextures "ICE" = some [1] ∧
    (staleBindRace.final.meshStore 2).material = Material.videoPhong 1 Side.double ∧
    (staleBindRace.final.meshStore 120).material = Material.videoPhong 1 Side.double ∧
    (mapGet staleBindRace.final.videoElements "ICE").map (fun vs => vs.map VideoElem.src)
      ≠ some ["fast.mp4"] := by
  decide

end Arena
